import Mathlib

/-!
# co2mon-ha-mqtt: the polling pipeline of `src/main.c`

A shallow embedding of the device loop of `main.c` (frame check, measurement
dispatch, error-state cache, supervisor loop) together with the properties of
its specification.

Conventions of the embedding.

* A C string is the run of characters in front of the first NUL of a piece of
  memory; memory is a `List Char`, the end of the list standing for the end of
  the object.
* The two `static char error_cache[100]` buffers of `set_temp_error` and
  `set_co2_error` are the two fields of `ErrCaches`.
* `sizeof(error_cache)` inside `_set_control_error` is the size of a
  `char *` (the parameter is a pointer); it is fixed by the ABI, not by the
  repository, and is the parameter `ptr_size` of the embedding.
* `co2mon.h` and `libusb.h` are not part of the sources at hand:
  `co2mon_data_t` is taken to be an array of `unsigned char` (each byte is
  read modulo 256) and `LIBUSB_ERROR_NO_DEVICE` to be `-4`.
* `double` is IEEE-754 binary64 with round to nearest, ties to even; a finite
  double is the rational number it stands for.
* The calls that reach the outside world (`mosquitto_publish`, `sleep`,
  `co2mon_close_device`) are recorded, in program order, as a list of
  `Effect`s.  Console output (`printf`, `fprintf`, and with it
  `co2mon_device_path` and the flag `show_no_device`) is not recorded.
* What the device does is an input: the list of outcomes of the successive
  calls of `co2mon_read_data`, `co2mon_send_magic_table` and
  `co2mon_open_device`.  A run is followed as far as the given outcomes
  reach, so every state between two passes of a loop is the final state of
  some run.
-/

namespace Co2mon

/-! ## Constants -/

/-- The frame code of a temperature reading: `#define CODE_TEMP 0x42`. -/
def CODE_TEMP : Nat := 0x42

/-- The frame code of a CO2 reading: `#define CODE_CO2 0x50`. -/
def CODE_CO2 : Nat := 0x50

/-- The frame code of a humidity reading: `#define CODE_HUMIDITY 0x41`
(defined, never used by `device_loop`). -/
def CODE_HUMIDITY : Nat := 0x41

/-- Value of `LIBUSB_ERROR_NO_DEVICE` in `libusb.h`. -/
def LIBUSB_ERROR_NO_DEVICE : Int := -4

/-! ## C strings -/

/-- The terminator of a C string. -/
def NUL : Char := Char.ofNat 0

/-- The C string stored at the start of `mem`. -/
def cstr (mem : List Char) : List Char :=
  mem.takeWhile (fun c => c != NUL)

/-- The length `strlen(mem)` of the C string at `mem`. -/
def strlen (mem : List Char) : Nat :=
  (cstr mem).length

/-- The call `strncpy(dst, src, n)`: exactly `n` characters of `dst` are written, the
first `min n (strlen src)` of them from `src`, the others NUL; no terminator
is written when `strlen src ≥ n`. The result is the new content of `dst`. -/
def strncpy (dst src : List Char) (n : Nat) : List Char :=
  (cstr src).take n ++ List.replicate (n - ((cstr src).take n).length) NUL ++ dst.drop n

/-- A call `snprintf(buf, size, ...)` keeps at most `size - 1` characters of the
formatted text `s`. -/
def snprintf (size : Nat) (s : List Char) : List Char :=
  s.take (size - 1)

/-! ## Effects -/

/-- Calls observable from outside the process. -/
inductive Effect where
  /-- The call `mosquitto_publish(mosq, NULL, topic, len, payload, qos, retain)`. -/
  | publish (topic : String) (payload : List Char) (qos : Nat) (retain : Bool)
  /-- The call `sleep(seconds)`. -/
  | sleep (seconds : Nat)
  /-- The call `co2mon_close_device(dev)`. -/
  | close_device
  deriving DecidableEq, Repr

/-- Topic of the temperature measurements. -/
def TOPIC_TEMP : String := "homeassistant/sensor/co2mon/temp"

/-- Topic of the CO2 measurements. -/
def TOPIC_CO2 : String := "homeassistant/sensor/co2mon/co2"

/-- The topic written by `publish_mqtt_error` into its 100-byte buffer. -/
def error_topic (control : String) : String :=
  String.mk (snprintf 100 ("homeassistant/sensor/co2mon/" ++ control ++ "/error").toList)

/-- The function `publish_mqtt_error(control, error)`; `none` is the NULL pointer. -/
def publish_mqtt_error (control : String) (error : Option (List Char)) : Effect :=
  match error with
  | some e => Effect.publish (error_topic control) (cstr e) 2 true
  | none => Effect.publish (error_topic control) [] 2 true

/-! ## Error-state cache -/

/-- The function `_set_control_error(control, error_cache, error)`: new content of the
cache and the publishes made. `ptr_size` is `sizeof(char *)`. -/
def _set_control_error (ptr_size : Nat) (control : String) (error_cache : List Char)
    (error : Option (List Char)) : List Char × List Effect :=
  match error with
  | some e =>
    if cstr error_cache ≠ cstr e then
      (strncpy error_cache e (ptr_size / 1), [publish_mqtt_error control (some e)])
    else
      (error_cache, [])
  | none =>
    if error_cache.headD NUL ≠ NUL then
      (error_cache.set 0 NUL, [publish_mqtt_error control none])
    else
      (error_cache, [])

/-- The two static caches, of `set_temp_error` and of `set_co2_error`. -/
structure ErrCaches where
  temp : List Char
  co2 : List Char
  deriving DecidableEq, Repr

/-- Both caches as initialised at program start: `char error_cache[100] = ""`. -/
def ErrCaches.init : ErrCaches :=
  { temp := List.replicate 100 NUL, co2 := List.replicate 100 NUL }

/-- The function `set_temp_error(error)`, on its static cache. -/
def set_temp_error (ptr_size : Nat) (st : ErrCaches) (error : Option (List Char)) :
    ErrCaches × List Effect :=
  ({ st with temp := (_set_control_error ptr_size "temp" st.temp error).1 },
   (_set_control_error ptr_size "temp" st.temp error).2)

/-- The function `set_co2_error(error)`, on its static cache. -/
def set_co2_error (ptr_size : Nat) (st : ErrCaches) (error : Option (List Char)) :
    ErrCaches × List Effect :=
  ({ st with co2 := (_set_control_error ptr_size "co2" st.co2 error).1 },
   (_set_control_error ptr_size "co2" st.co2 error).2)

/-- The function `set_errors()`: `set_temp_error("r"); set_co2_error("r")`. -/
def set_errors (ptr_size : Nat) (st : ErrCaches) : ErrCaches × List Effect :=
  ((set_co2_error ptr_size (set_temp_error ptr_size st (some ['r'])).1 (some ['r'])).1,
   (set_temp_error ptr_size st (some ['r'])).2 ++
     (set_co2_error ptr_size (set_temp_error ptr_size st (some ['r'])).1 (some ['r'])).2)

/-! ## Double precision and `printf`

`double` is IEEE-754 binary64 evaluated with round to nearest, ties to even.
A finite double is represented by the rational number it stands for. -/

/-- The integer nearest to `q`, the even one of the two when `q` lies halfway. -/
def roundHalfEven (q : ℚ) : ℤ :=
  if q - ⌊q⌋ < 1 / 2 then ⌊q⌋
  else if 1 / 2 < q - ⌊q⌋ then ⌊q⌋ + 1
  else if ⌊q⌋ % 2 = 0 then ⌊q⌋ else ⌊q⌋ + 1

/-- The binary64 number nearest to `q` (53 significant bits), for `q` of a
magnitude in the normal range of binary64; every value of this program is. -/
def toDouble (q : ℚ) : ℚ :=
  if q = 0 then 0
  else roundHalfEven (q / 2 ^ (Int.log 2 |q| - 52)) * 2 ^ (Int.log 2 |q| - 52)

/-- The function `decode_temperature(uint16_t w)`:
`return (double)w * 0.0625 - 273.15;` -/
def decode_temperature (w : Nat) : ℚ :=
  toDouble (toDouble (((w % 65536 : Nat) : ℚ) * toDouble 0.0625) - toDouble 273.15)

/-- The text of `printf("%2.1f", x)`: sign, integer part, one decimal, padded
with blanks on the left to two characters. The decimal is the correct rounding
of the exact value of `x`, ties to even (the C library in its default rounding
mode). -/
def fmt_2_1f (x : ℚ) : List Char :=
  List.replicate
      (2 - ((if x < 0 then ['-'] else []) ++
        Nat.toDigits 10 ((roundHalfEven (|x| * 10)).toNat / 10) ++ ['.'] ++
        Nat.toDigits 10 ((roundHalfEven (|x| * 10)).toNat % 10)).length) ' ' ++
    ((if x < 0 then ['-'] else []) ++
      Nat.toDigits 10 ((roundHalfEven (|x| * 10)).toNat / 10) ++ ['.'] ++
      Nat.toDigits 10 ((roundHalfEven (|x| * 10)).toNat % 10))

/-- The text of `printf("%d", n)` for a value that is not negative. -/
def fmt_d (n : Nat) : List Char :=
  Nat.toDigits 10 n

/-! ## The device loop -/

/-- The byte `result[i]` of a `co2mon_data_t` (an array of `unsigned char`);
a position past the end of the list reads as 0. -/
def byte (result : List Nat) (i : Nat) : Nat :=
  result.getD i 0 % 256

/-- Outcome of one call `r = co2mon_read_data(dev, magic_table, result)`: the
returned value and the content of `result` after the call. -/
structure ReadOutcome where
  r : Int
  result : List Nat
  deriving DecidableEq, Repr

/-- State after one pass through the body of `while (1)` in `device_loop`;
`brk` tells that the pass ended in `break`. -/
structure Iter where
  caches : ErrCaches
  effects : List Effect
  brk : Bool
  deriving DecidableEq, Repr

/-- The statement `switch (r0) { case CODE_TEMP: ... case CODE_CO2: ... }` of
`device_loop`, for the code `r0` and the word `w`. -/
def switch_stmt (ptr_size : Nat) (st : ErrCaches) (r0 w : Nat) : ErrCaches × List Effect :=
  if r0 = CODE_TEMP then
    ((set_temp_error ptr_size st none).1,
     Effect.publish TOPIC_TEMP (cstr (snprintf 15 (fmt_2_1f (decode_temperature w)))) 2 true ::
       (set_temp_error ptr_size st none).2)
  else if r0 = CODE_CO2 then
    if w % 2 ^ 32 > 3000 then
      (st, [])
    else
      ((set_co2_error ptr_size st none).1,
       Effect.publish TOPIC_CO2 (cstr (snprintf 15 (fmt_d w))) 2 true ::
         (set_co2_error ptr_size st none).2)
  else
    (st, [])

/-- One pass through the body of `while (1)` in `device_loop`, the call of
`co2mon_read_data` having the outcome `rd`. -/
def loop_body (ptr_size : Nat) (st : ErrCaches) (rd : ReadOutcome) : Iter :=
  if rd.r = LIBUSB_ERROR_NO_DEVICE then
    { caches := (set_errors ptr_size st).1, effects := (set_errors ptr_size st).2, brk := true }
  else if rd.r ≤ 0 then
    { caches := (set_errors ptr_size st).1,
      effects := (set_errors ptr_size st).2 ++ [Effect.sleep 1], brk := false }
  else if byte rd.result 4 ≠ 0x0d then
    { caches := (set_errors ptr_size st).1, effects := (set_errors ptr_size st).2, brk := false }
  else if (byte rd.result 0 + byte rd.result 1 + byte rd.result 2) % 256 ≠ byte rd.result 3 then
    { caches := (set_errors ptr_size st).1, effects := (set_errors ptr_size st).2, brk := false }
  else
    { caches :=
        (switch_stmt ptr_size st (byte rd.result 0)
          (((byte rd.result 1 <<< 8) + byte rd.result 2) % 65536)).1,
      effects :=
        (switch_stmt ptr_size st (byte rd.result 0)
          (((byte rd.result 1 <<< 8) + byte rd.result 2) % 65536)).2,
      brk := false }

/-- State when `device_loop` has returned (`returned = true`, `unread` being
the outcomes it never asked for) or has used up the given outcomes and waits
in `co2mon_read_data` (`returned = false`). -/
structure LoopResult where
  caches : ErrCaches
  effects : List Effect
  returned : Bool
  unread : List ReadOutcome
  deriving DecidableEq, Repr

/-- The loop `while (1) { ... }` of `device_loop` run against the successive
outcomes of `co2mon_read_data`. -/
def device_loop_while (ptr_size : Nat) : ErrCaches → List ReadOutcome → LoopResult
  | st, [] => { caches := st, effects := [], returned := false, unread := [] }
  | st, rd :: rds =>
    if (loop_body ptr_size st rd).brk then
      { caches := (loop_body ptr_size st rd).caches,
        effects := (loop_body ptr_size st rd).effects,
        returned := true, unread := rds }
    else
      { caches := (device_loop_while ptr_size (loop_body ptr_size st rd).caches rds).caches,
        effects := (loop_body ptr_size st rd).effects ++
          (device_loop_while ptr_size (loop_body ptr_size st rd).caches rds).effects,
        returned := (device_loop_while ptr_size (loop_body ptr_size st rd).caches rds).returned,
        unread := (device_loop_while ptr_size (loop_body ptr_size st rd).caches rds).unread }

/-- The function `device_loop(dev)`; `magic_sent` is the result of
`co2mon_send_magic_table`, `reads` the outcomes of `co2mon_read_data`. -/
def device_loop (ptr_size : Nat) (st : ErrCaches) (magic_sent : Bool)
    (reads : List ReadOutcome) : LoopResult :=
  if !magic_sent then
    { caches := (set_errors ptr_size st).1, effects := (set_errors ptr_size st).2,
      returned := true, unread := reads }
  else
    device_loop_while ptr_size st reads

/-- What an opened device does during its session. -/
structure Session where
  magic_sent : Bool
  reads : List ReadOutcome
  deriving DecidableEq, Repr

/-- The function `monitor_loop()` run against the successive outcomes of
`co2mon_open_device` (`none`: no device). The run stops where the outcomes are
used up, inside `device_loop` when the last session does not end. -/
def monitor_loop (ptr_size : Nat) : ErrCaches → List (Option Session) → ErrCaches × List Effect
  | st, [] => (st, [])
  | st, none :: rest =>
    ((monitor_loop ptr_size
        (set_co2_error ptr_size (set_temp_error ptr_size st (some ['r'])).1 (some ['r'])).1
        rest).1,
     (set_temp_error ptr_size st (some ['r'])).2 ++
       (set_co2_error ptr_size (set_temp_error ptr_size st (some ['r'])).1 (some ['r'])).2 ++
       [Effect.sleep 1] ++
       (monitor_loop ptr_size
        (set_co2_error ptr_size (set_temp_error ptr_size st (some ['r'])).1 (some ['r'])).1
        rest).2)
  | st, some s :: rest =>
    if (device_loop ptr_size st s.magic_sent s.reads).returned then
      ((monitor_loop ptr_size (device_loop ptr_size st s.magic_sent s.reads).caches rest).1,
       (device_loop ptr_size st s.magic_sent s.reads).effects ++
         [Effect.close_device, Effect.sleep 1] ++
         (monitor_loop ptr_size (device_loop ptr_size st s.magic_sent s.reads).caches rest).2)
    else
      ((device_loop ptr_size st s.magic_sent s.reads).caches,
       (device_loop ptr_size st s.magic_sent s.reads).effects)

/-! ## Vocabulary of the properties -/

/-- The publishes of `l` made on the topic `t`, in program order. -/
def publishes_on (t : String) (l : List Effect) : List Effect :=
  l.filter (fun x =>
    match x with
    | Effect.publish t' _ _ _ => t' == t
    | _ => false)

/-- Topic of the error notifications of the temperature channel. -/
def TOPIC_TEMP_ERROR : String := "homeassistant/sensor/co2mon/temp/error"

/-- Topic of the error notifications of the CO2 channel. -/
def TOPIC_CO2_ERROR : String := "homeassistant/sensor/co2mon/co2/error"

/-- The two channels that have an error state. -/
inductive Channel where
  | temp
  | co2
  deriving DecidableEq, Repr

/-- The `control` string that the tracker of a channel passes on. -/
def Channel.control : Channel → String
  | Channel.temp => "temp"
  | Channel.co2 => "co2"

/-- The cache of a channel. -/
def Channel.cache : Channel → ErrCaches → List Char
  | Channel.temp, st => st.temp
  | Channel.co2, st => st.co2

/-- The tracker of a channel: `set_temp_error` or `set_co2_error`. -/
def report (ptr_size : Nat) (ch : Channel) (st : ErrCaches) (error : Option (List Char)) :
    ErrCaches × List Effect :=
  match ch with
  | Channel.temp => set_temp_error ptr_size st error
  | Channel.co2 => set_co2_error ptr_size st error

/-- Content of a 100-byte cache that holds the empty string or the string "r",
every other byte being NUL. -/
def cache_ok (c : List Char) : Prop :=
  c = List.replicate 100 NUL ∨ c = 'r' :: List.replicate 99 NUL

/-- Both caches are of the form `cache_ok`. -/
def caches_ok (st : ErrCaches) : Prop :=
  cache_ok st.temp ∧ cache_ok st.co2

/-- Every publish of `l` on an error topic carries the payload "r" or no payload. -/
def errors_ok (l : List Effect) : Prop :=
  ∀ t p q r, Effect.publish t p q r ∈ l → t = TOPIC_TEMP_ERROR ∨ t = TOPIC_CO2_ERROR →
    p = ['r'] ∨ p = []

/-! ## Sample inputs -/

/-- A successful read of the temperature frame `42 10 00 52 0d 00 00 00`. -/
def frame_temp_4096 : ReadOutcome :=
  { r := 8, result := [0x42, 0x10, 0x00, 0x52, 0x0d, 0, 0, 0] }

/-- A successful read of the CO2 frame `50 0b b8 13 0d 00 00 00` (word 3000). -/
def frame_co2_3000 : ReadOutcome :=
  { r := 8, result := [0x50, 0x0b, 0xb8, 0x13, 0x0d, 0, 0, 0] }

/-- A successful read of the frame `50 0b b8 ff 0d 00 00 00`, whose checksum
byte is not `(0x50 + 0x0b + 0xb8) mod 256 = 0x13`. -/
def frame_bad_checksum : ReadOutcome :=
  { r := 8, result := [0x50, 0x0b, 0xb8, 0xff, 0x0d, 0, 0, 0] }

/-- A successful read of the humidity frame `41 12 34 87 0d 00 00 00`. -/
def frame_humidity : ReadOutcome :=
  { r := 8, result := [0x41, 0x12, 0x34, 0x87, 0x0d, 0, 0, 0] }

/-- A read that times out. -/
def read_timeout : ReadOutcome :=
  { r := 0, result := [] }

/-- A read that reports the removal of the device. -/
def read_no_device : ReadOutcome :=
  { r := LIBUSB_ERROR_NO_DEVICE, result := [] }

/-- A run of `monitor_loop`: no device, then a session that ends with the
removal of the device, then a device whose handshake fails. -/
def sample_run : List (Option Session) :=
  [none,
   some { magic_sent := true,
          reads := [frame_temp_4096, read_timeout, frame_co2_3000, read_no_device] },
   some { magic_sent := false, reads := [] }]

/-! ## Lemmas -/

theorem cstr_nil : cstr [] = [] := rfl

theorem cstr_cons (c : Char) (m : List Char) :
    cstr (c :: m) = if c = NUL then [] else c :: cstr m := by
  by_cases h : c = NUL
  · subst h; simp [cstr, List.takeWhile]
  · have hb : (c != NUL) = true := by simpa using h
    simp [cstr, List.takeWhile, hb, h]

theorem cstr_append_NUL (e rest : List Char) : cstr (cstr e ++ NUL :: rest) = cstr e := by
  induction e with
  | nil => simp [cstr_cons, cstr_nil]
  | cons c t ih =>
    by_cases h : c = NUL
    · simp [cstr_cons, h]
    · simp [cstr_cons, h, ih]

theorem cstr_strncpy_of_lt (dst e : List Char) (n : Nat) (h : strlen e < n) :
    cstr (strncpy dst e n) = cstr e := by
  unfold strlen at h
  have h1 : (cstr e).take n = cstr e := List.take_of_length_le (Nat.le_of_lt h)
  obtain ⟨k, hk⟩ : ∃ k, n - (cstr e).length = k + 1 := ⟨n - (cstr e).length - 1, by omega⟩
  simp only [strncpy, h1, hk, List.replicate_succ, List.append_assoc, List.cons_append]
  exact cstr_append_NUL e _

theorem headD_ne_of_cstr_ne_nil (m : List Char) (h : cstr m ≠ []) : m.headD NUL ≠ NUL := by
  cases m with
  | nil => simp [cstr_nil] at h
  | cons c t =>
    by_cases hc : c = NUL
    · simp [cstr_cons, hc] at h
    · simpa using hc

theorem cstr_eq_nil_of_headD (m : List Char) (h : m.headD NUL = NUL) : cstr m = [] := by
  cases m with
  | nil => rfl
  | cons c t =>
    have hc : c = NUL := by simpa using h
    simp [cstr_cons, hc]

theorem cstr_set_zero (m : List Char) : cstr (m.set 0 NUL) = [] := by
  cases m with
  | nil => rfl
  | cons c t => simp [cstr_cons]

theorem headD_strncpy (dst e : List Char) (n : Nat) (hn : 0 < n) (h : cstr e ≠ []) :
    (strncpy dst e n).headD NUL ≠ NUL := by
  have h0 := headD_ne_of_cstr_ne_nil e h
  obtain ⟨k, rfl⟩ : ∃ k, n = k + 1 := ⟨n - 1, by omega⟩
  cases e with
  | nil => simp [cstr_nil] at h
  | cons c t =>
    have hc : c ≠ NUL := by simpa using h0
    simp [strncpy, cstr_cons, hc]

/-- Second of two equal reports: nothing is published, nothing changes. -/
theorem set_control_error_twice (n : Nat) (control : String) (cache e : List Char)
    (h : strlen e < n) :
    _set_control_error n control (_set_control_error n control cache (some e)).1 (some e)
      = ((_set_control_error n control cache (some e)).1, []) := by
  by_cases hc : cstr cache = cstr e
  · simp [_set_control_error, hc]
  · simp [_set_control_error, hc, cstr_strncpy_of_lt _ _ _ h]

theorem set_control_error_length (n : Nat) (control : String) (cache : List Char)
    (error : Option (List Char)) :
    (_set_control_error n control cache error).2.length ≤ 1 := by
  cases error with
  | none => simp only [_set_control_error]; split <;> simp
  | some e => simp only [_set_control_error]; split <;> simp

theorem headD_eq_of_cstr_eq_nil (m : List Char) (h : cstr m = []) : m.headD NUL = NUL := by
  by_contra hne
  cases m with
  | nil => exact hne rfl
  | cons c t =>
    have hc : c ≠ NUL := by simpa using hne
    simp [cstr_cons, hc] at h

theorem error_topic_temp : error_topic "temp" = "homeassistant/sensor/co2mon/temp/error" := by
  decide

theorem error_topic_co2 : error_topic "co2" = "homeassistant/sensor/co2mon/co2/error" := by
  decide

theorem headD_after_report (n : Nat) (hn : 0 < n) (control : String) (cache e : List Char)
    (he : cstr e ≠ []) :
    (_set_control_error n control cache (some e)).1.headD NUL ≠ NUL := by
  by_cases hc : cstr cache = cstr e
  · simp only [_set_control_error, hc, ne_eq, not_true_eq_false, if_false]
    exact headD_ne_of_cstr_ne_nil cache (hc ▸ he)
  · simp only [_set_control_error, hc, ne_eq, not_false_eq_true, if_true, Nat.div_one]
    exact headD_strncpy cache e n hn he

theorem set_control_error_none_of_ne (n : Nat) (control : String) (c : List Char)
    (h : c.headD NUL ≠ NUL) :
    _set_control_error n control c none = (c.set 0 NUL, [publish_mqtt_error control none]) := by
  simp only [_set_control_error, if_pos h]

theorem set_control_error_none_of_eq (n : Nat) (control : String) (c : List Char)
    (h : c.headD NUL = NUL) :
    _set_control_error n control c none = (c, []) := by
  have h2 : ¬ c.headD NUL ≠ NUL := by simpa using h
  simp only [_set_control_error, if_neg h2]

theorem digitChar_ne_NUL (d : Nat) : Nat.digitChar d ≠ NUL := by
  by_cases h : d < 16
  · interval_cases d <;> decide
  · unfold Nat.digitChar
    iterate 16 rw [if_neg (by omega)]
    decide

theorem toDigitsCore_no_NUL (b : Nat) (f : Nat) :
    ∀ (n : Nat) (acc : List Char), (∀ c ∈ acc, c ≠ NUL) →
      ∀ c ∈ Nat.toDigitsCore b f n acc, c ≠ NUL := by
  induction f with
  | zero => intro n acc h; simpa [Nat.toDigitsCore] using h
  | succ f ih =>
    intro n acc h
    have hcons : ∀ c ∈ Nat.digitChar (n % b) :: acc, c ≠ NUL := by
      intro c hc
      rcases List.mem_cons.mp hc with rfl | hc
      · exact digitChar_ne_NUL _
      · exact h c hc
    simp only [Nat.toDigitsCore]
    split_ifs
    · exact hcons
    · exact ih _ _ hcons

theorem toDigits_no_NUL (n : Nat) : ∀ c ∈ Nat.toDigits 10 n, c ≠ NUL :=
  toDigitsCore_no_NUL 10 (n + 1) n [] (by simp)

theorem cstr_of_no_NUL (m : List Char) (h : ∀ c ∈ m, c ≠ NUL) : cstr m = m := by
  induction m with
  | nil => rfl
  | cons c t ih =>
    have hc : c ≠ NUL := h c (List.mem_cons_self _ _)
    simp [cstr_cons, hc, ih (fun x hx => h x (List.mem_cons_of_mem _ hx))]

theorem payload_fmt_d (w : Nat) (hw : w < 10 ^ 14) :
    cstr (snprintf 15 (fmt_d w)) = Nat.toDigits 10 w := by
  have hlen : (Nat.toDigits 10 w).length ≤ 14 :=
    Nat.toDigitsCore_length 10 (by decide) (w + 1) w 14 hw (by decide)
  have htake : snprintf 15 (fmt_d w) = Nat.toDigits 10 w := by
    simp only [snprintf, fmt_d]
    exact List.take_of_length_le hlen
  rw [htake]
  exact cstr_of_no_NUL _ (toDigits_no_NUL w)

theorem word_eq (b1 b2 : Nat) (h1 : b1 < 256) (h2 : b2 < 256) :
    ((b1 <<< 8) + b2) % 65536 = b1 * 256 + b2 := by
  rw [Nat.shiftLeft_eq]
  omega

theorem byte_lt (result : List Nat) (i : Nat) : byte result i < 256 := by
  unfold byte
  omega

theorem set_control_error_r (n : Nat) (control : String) (c : List Char) :
    _set_control_error n control c (some ['r'])
      = if cstr c = ['r'] then (c, [])
        else (strncpy c ['r'] n, [Effect.publish (error_topic control) ['r'] 2 true]) := by
  have h1 : cstr ['r'] = ['r'] := by decide
  by_cases h : cstr c = ['r']
  · simp [_set_control_error, h, h1]
  · simp [_set_control_error, h, h1, publish_mqtt_error]

theorem set_errors_caches (n : Nat) (st : ErrCaches) :
    (set_errors n st).1 =
      { temp := if cstr st.temp = ['r'] then st.temp else strncpy st.temp ['r'] n,
        co2 := if cstr st.co2 = ['r'] then st.co2 else strncpy st.co2 ['r'] n } := by
  simp only [set_errors, set_temp_error, set_co2_error, set_control_error_r]
  by_cases h1 : cstr st.temp = ['r'] <;> by_cases h2 : cstr st.co2 = ['r'] <;> simp [h1, h2]

theorem set_errors_effects (n : Nat) (st : ErrCaches) :
    (set_errors n st).2 =
      (if cstr st.temp = ['r'] then [] else [Effect.publish TOPIC_TEMP_ERROR ['r'] 2 true]) ++
      (if cstr st.co2 = ['r'] then [] else [Effect.publish TOPIC_CO2_ERROR ['r'] 2 true]) := by
  simp only [set_errors, set_temp_error, set_co2_error, set_control_error_r, error_topic_temp,
    error_topic_co2, TOPIC_TEMP_ERROR, TOPIC_CO2_ERROR]
  by_cases h1 : cstr st.temp = ['r'] <;> by_cases h2 : cstr st.co2 = ['r'] <;> simp [h1, h2]

theorem set_errors_mem (n : Nat) (st : ErrCaches) (x : Effect) (hx : x ∈ (set_errors n st).2) :
    x = Effect.publish TOPIC_TEMP_ERROR ['r'] 2 true ∨
    x = Effect.publish TOPIC_CO2_ERROR ['r'] 2 true := by
  rw [set_errors_effects] at hx
  rcases List.mem_append.mp hx with h | h
  · left
    split at h
    · simp at h
    · simpa using h
  · right
    split at h
    · simp at h
    · simpa using h

theorem publishes_on_eq_nil (t : String) (l : List Effect)
    (h : ∀ x ∈ l, ∀ p q r, x ≠ Effect.publish t p q r) : publishes_on t l = [] := by
  unfold publishes_on
  rw [List.filter_eq_nil_iff]
  intro x hx
  cases x with
  | publish t' p q r =>
    have := h _ hx p q r
    simp only [beq_iff_eq]
    intro ht
    exact this (by rw [ht])
  | sleep k => simp
  | close_device => simp

theorem publishes_on_set_errors (n : Nat) (st : ErrCaches) (t : String)
    (h1 : t ≠ TOPIC_TEMP_ERROR) (h2 : t ≠ TOPIC_CO2_ERROR) :
    publishes_on t (set_errors n st).2 = [] := by
  apply publishes_on_eq_nil
  intro x hx p q r hxe
  rcases set_errors_mem n st x hx with h | h
  · rw [h] at hxe
    injection hxe with ht
    exact h1 ht.symm
  · rw [h] at hxe
    injection hxe with ht
    exact h2 ht.symm

theorem loop_body_valid (ptr_size : Nat) (st : ErrCaches) (rd : ReadOutcome) (hr : 0 < rd.r)
    (h4 : byte rd.result 4 = 0x0d)
    (h3 : byte rd.result 3 = (byte rd.result 0 + byte rd.result 1 + byte rd.result 2) % 256) :
    loop_body ptr_size st rd =
      { caches := (switch_stmt ptr_size st (byte rd.result 0)
          (byte rd.result 1 * 256 + byte rd.result 2)).1,
        effects := (switch_stmt ptr_size st (byte rd.result 0)
          (byte rd.result 1 * 256 + byte rd.result 2)).2,
        brk := false } := by
  have hnd : rd.r ≠ LIBUSB_ERROR_NO_DEVICE := by
    intro h; rw [h] at hr; exact absurd hr (by decide)
  have hpos : ¬ rd.r ≤ 0 := not_le.mpr hr
  have h4n : ¬ byte rd.result 4 ≠ 0x0d := not_not.mpr h4
  have h3n : ¬ (byte rd.result 0 + byte rd.result 1 + byte rd.result 2) % 256
      ≠ byte rd.result 3 := not_not.mpr h3.symm
  unfold loop_body
  rw [if_neg hnd, if_neg hpos, if_neg h4n, if_neg h3n,
    word_eq _ _ (byte_lt _ _) (byte_lt _ _)]

theorem set_temp_error_none (n : Nat) (st : ErrCaches) :
    set_temp_error n st none =
      if st.temp.headD NUL = NUL then (st, [])
      else ({ st with temp := st.temp.set 0 NUL },
            [Effect.publish TOPIC_TEMP_ERROR [] 2 true]) := by
  by_cases h : st.temp.headD NUL = NUL
  · rw [if_pos h]
    simp only [set_temp_error, set_control_error_none_of_eq _ _ _ h]
  · rw [if_neg h]
    simp only [set_temp_error, set_control_error_none_of_ne _ _ _ h, publish_mqtt_error,
      error_topic_temp, TOPIC_TEMP_ERROR]

theorem set_co2_error_none (n : Nat) (st : ErrCaches) :
    set_co2_error n st none =
      if st.co2.headD NUL = NUL then (st, [])
      else ({ st with co2 := st.co2.set 0 NUL },
            [Effect.publish TOPIC_CO2_ERROR [] 2 true]) := by
  by_cases h : st.co2.headD NUL = NUL
  · rw [if_pos h]
    simp only [set_co2_error, set_control_error_none_of_eq _ _ _ h]
  · rw [if_neg h]
    simp only [set_co2_error, set_control_error_none_of_ne _ _ _ h, publish_mqtt_error,
      error_topic_co2, TOPIC_CO2_ERROR]

theorem switch_stmt_temp (n : Nat) (st : ErrCaches) (w : Nat) :
    switch_stmt n st 0x42 w =
      ((set_temp_error n st none).1,
       Effect.publish TOPIC_TEMP (cstr (snprintf 15 (fmt_2_1f (decode_temperature w)))) 2 true ::
         (set_temp_error n st none).2) := by
  simp [switch_stmt, CODE_TEMP]

theorem switch_stmt_co2 (n : Nat) (st : ErrCaches) (w : Nat) (hw : w < 65536) :
    switch_stmt n st 0x50 w =
      if 3000 < w then (st, [])
      else ((set_co2_error n st none).1,
            Effect.publish TOPIC_CO2 (Nat.toDigits 10 w) 2 true ::
              (set_co2_error n st none).2) := by
  have hmod : w % 4294967296 = w := Nat.mod_eq_of_lt (by omega)
  have hp : cstr (snprintf 15 (fmt_d w)) = Nat.toDigits 10 w :=
    payload_fmt_d w (by omega)
  simp [switch_stmt, CODE_TEMP, CODE_CO2, hmod, hp]

theorem switch_stmt_other (n : Nat) (st : ErrCaches) (r0 w : Nat) (h1 : r0 ≠ 0x42)
    (h2 : r0 ≠ 0x50) : switch_stmt n st r0 w = (st, []) := by
  simp [switch_stmt, CODE_TEMP, CODE_CO2, h1, h2]

theorem word_lt (result : List Nat) : byte result 1 * 256 + byte result 2 < 65536 := by
  have h1 := byte_lt result 1
  have h2 := byte_lt result 2
  omega

theorem roundHalfEven_eq (q : ℚ) (n : ℤ) (h : |q - n| < 1 / 2) : roundHalfEven q = n := by
  rw [abs_lt] at h
  obtain ⟨hl, hu⟩ := h
  unfold roundHalfEven
  by_cases hq : (n : ℚ) ≤ q
  · have hf : ⌊q⌋ = n := by
      rw [Int.floor_eq_iff]
      constructor
      · exact hq
      · linarith
    rw [hf, if_pos hu]
  · have hf : ⌊q⌋ = n - 1 := by
      rw [Int.floor_eq_iff]
      push_cast
      constructor <;> linarith
    have h1 : ¬ (q - ((n - 1 : ℤ) : ℚ) < 1 / 2) := by push_cast; linarith
    have h2 : (1 / 2 : ℚ) < q - ((n - 1 : ℤ) : ℚ) := by push_cast; linarith
    rw [hf, if_neg h1, if_pos h2]
    ring

theorem roundHalfEven_err (q : ℚ) : |(roundHalfEven q : ℚ) - q| ≤ 1 / 2 := by
  have h1 : (⌊q⌋ : ℚ) ≤ q := Int.floor_le q
  have h2 : q < ⌊q⌋ + 1 := Int.lt_floor_add_one q
  unfold roundHalfEven
  rw [abs_le]
  split_ifs with a b c
  · constructor <;> linarith
  · push_cast; constructor <;> linarith
  · constructor <;> linarith
  · push_cast; constructor <;> linarith

theorem log_eq_of_bounds (q : ℚ) (k : ℤ) (hq : 0 < q) (h1 : (2 : ℚ) ^ k ≤ q)
    (h2 : q < (2 : ℚ) ^ (k + 1)) : Int.log 2 q = k := by
  have a : k ≤ Int.log 2 q := (Int.zpow_le_iff_le_log (by norm_num) hq).mp (by exact_mod_cast h1)
  have b : Int.log 2 q < k + 1 :=
    (Int.lt_zpow_iff_log_lt (by norm_num) hq).mp (by exact_mod_cast h2)
  omega

theorem toDouble_eq (q : ℚ) (k n : ℤ) (hq : q ≠ 0) (h1 : (2 : ℚ) ^ k ≤ |q|)
    (h2 : |q| < (2 : ℚ) ^ (k + 1)) (hn : |q / 2 ^ (k - 52) - n| < 1 / 2) :
    toDouble q = n * 2 ^ (k - 52) := by
  have hlog : Int.log 2 |q| = k := log_eq_of_bounds |q| k (abs_pos.mpr hq) h1 h2
  unfold toDouble
  rw [if_neg hq, hlog, roundHalfEven_eq _ n hn]

theorem toDouble_err (q : ℚ) (k : ℤ) (h : |q| < (2 : ℚ) ^ (k + 1)) :
    |toDouble q - q| ≤ (2 : ℚ) ^ (k - 53) := by
  by_cases hq : q = 0
  · subst hq
    simp only [toDouble, if_true, sub_self, abs_zero]
    positivity
  · have hpos : 0 < |q| := abs_pos.mpr hq
    have hlog : Int.log 2 |q| < k + 1 :=
      (Int.lt_zpow_iff_log_lt (by norm_num) hpos).mp (by exact_mod_cast h)
    have hu : (0 : ℚ) < 2 ^ (Int.log 2 |q| - 52) := by positivity
    have herr := roundHalfEven_err (q / 2 ^ (Int.log 2 |q| - 52))
    unfold toDouble
    rw [if_neg hq]
    have e1 : (roundHalfEven (q / 2 ^ (Int.log 2 |q| - 52)) : ℚ) * 2 ^ (Int.log 2 |q| - 52) - q
        = ((roundHalfEven (q / 2 ^ (Int.log 2 |q| - 52)) : ℚ) - q / 2 ^ (Int.log 2 |q| - 52))
          * 2 ^ (Int.log 2 |q| - 52) := by
      field_simp
    rw [e1, abs_mul, abs_of_pos hu]
    have e2 : (2 : ℚ) ^ (k - 53) = 1 / 2 * 2 ^ (k - 52) := by
      rw [show k - 53 = (k - 52) + (-1) by ring, zpow_add₀ (by norm_num)]
      norm_num
      ring
    have e3 : (2 : ℚ) ^ (Int.log 2 |q| - 52) ≤ 2 ^ (k - 52) :=
      zpow_le_zpow_right₀ (by norm_num) (by omega)
    rw [e2]
    calc |(roundHalfEven (q / 2 ^ (Int.log 2 |q| - 52)) : ℚ) - q / 2 ^ (Int.log 2 |q| - 52)|
          * 2 ^ (Int.log 2 |q| - 52)
        ≤ 1 / 2 * 2 ^ (Int.log 2 |q| - 52) := by
          exact mul_le_mul_of_nonneg_right herr (le_of_lt hu)
      _ ≤ 1 / 2 * 2 ^ (k - 52) := by
          exact mul_le_mul_of_nonneg_left e3 (by norm_num)

theorem toDouble_sixteenth : toDouble 0.0625 = 1 / 16 := by
  have h := toDouble_eq 0.0625 (-4) 4503599627370496 (by norm_num)
    (by rw [abs_of_pos (by norm_num)]; norm_num)
    (by rw [abs_of_pos (by norm_num)]; norm_num)
    (by rw [abs_lt]; constructor <;> norm_num)
  rw [h]
  norm_num

theorem toDouble_273_15 : toDouble 273.15 = 2402652809016115 / 8796093022208 := by
  have h := toDouble_eq 273.15 8 4805305618032230 (by norm_num)
    (by rw [abs_of_pos (by norm_num)]; norm_num)
    (by rw [abs_of_pos (by norm_num)]; norm_num)
    (by rw [abs_lt]; constructor <;> norm_num)
  rw [h]
  norm_num

theorem decode_temperature_4096 :
    decode_temperature 4096 = -150852995330867 / 8796093022208 := by
  have h256 : toDouble (((4096 % 65536 : ℕ) : ℚ) * (1 / 16)) = 256 := by
    have e : (((4096 % 65536 : ℕ) : ℚ) * (1 / 16)) = 256 := by norm_num
    rw [e]
    have h := toDouble_eq 256 8 4503599627370496 (by norm_num)
      (by rw [abs_of_pos (by norm_num)]; norm_num)
      (by rw [abs_of_pos (by norm_num)]; norm_num)
      (by rw [abs_lt]; constructor <;> norm_num)
    rw [h]
    norm_num
  unfold decode_temperature
  rw [toDouble_sixteenth, toDouble_273_15, h256]
  have e : (256 : ℚ) - 2402652809016115 / 8796093022208
      = -150852995330867 / 8796093022208 := by norm_num
  rw [e]
  have h := toDouble_eq (-150852995330867 / 8796093022208) 4 (-4827295850587744)
    (by norm_num)
    (by rw [abs_of_neg (by norm_num)]; norm_num)
    (by rw [abs_of_neg (by norm_num)]; norm_num)
    (by rw [abs_lt]; constructor <;> norm_num)
  rw [h]
  norm_num

theorem toDouble_neg_17_15 :
    toDouble (-17.15) = -2413647925293875 / 140737488355328 := by
  have h := toDouble_eq (-17.15) 4 (-4827295850587750)
    (by norm_num)
    (by rw [abs_of_neg (by norm_num)]; norm_num)
    (by rw [abs_of_neg (by norm_num)]; norm_num)
    (by rw [abs_lt]; constructor <;> norm_num)
  rw [h]
  norm_num

theorem payload_4096 :
    cstr (snprintf 15 (fmt_2_1f (decode_temperature 4096))) = ['-', '1', '7', '.', '1'] := by
  rw [decode_temperature_4096]
  have hneg : (-150852995330867 / 8796093022208 : ℚ) < 0 := by norm_num
  have hr : roundHalfEven (|(-150852995330867 / 8796093022208 : ℚ)| * 10) = 171 := by
    apply roundHalfEven_eq
    rw [abs_of_neg hneg, abs_lt]
    constructor <;> norm_num
  unfold fmt_2_1f
  rw [hr, if_pos hneg]
  decide

theorem decode_temperature_err (w : Nat) (hw : w < 65536) :
    |decode_temperature w - ((w : ℚ) * 0.0625 - 273.15)| < 1 / 10 ^ 12 := by
  have hmod : w % 65536 = w := Nat.mod_eq_of_lt hw
  have hwq : (w : ℚ) ≤ 65535 := by exact_mod_cast Nat.le_of_lt_succ hw
  have hw0 : (0 : ℚ) ≤ w := by positivity
  unfold decode_temperature
  rw [hmod, toDouble_sixteenth, toDouble_273_15]
  have p41 : (2 : ℚ) ^ ((11 : ℤ) - 53) = 1 / 4398046511104 := by norm_num
  have p12 : (2 : ℚ) ^ ((11 : ℤ) + 1) = 4096 := by norm_num
  -- the product
  have hy := toDouble_err ((w : ℚ) * (1 / 16)) 11 (by
    rw [p12, abs_of_nonneg (by positivity)]
    linarith)
  rw [p41, abs_le] at hy
  obtain ⟨hy1, hy2⟩ := hy
  -- the difference
  have hz := toDouble_err
    (toDouble ((w : ℚ) * (1 / 16)) - 2402652809016115 / 8796093022208) 11 (by
      rw [p12, abs_lt]
      constructor <;> linarith)
  rw [p41, abs_le] at hz
  obtain ⟨hz1, hz2⟩ := hz
  rw [abs_lt]
  constructor
  · norm_num at hy1 hy2 hz1 hz2 ⊢
    linarith
  · norm_num at hy1 hy2 hz1 hz2 ⊢
    linarith

theorem publishes_on_cons_same (t : String) (p : List Char) (q : Nat) (r : Bool)
    (l : List Effect) :
    publishes_on t (Effect.publish t p q r :: l) = Effect.publish t p q r :: publishes_on t l := by
  simp [publishes_on]

theorem publishes_on_cons_other (t t' : String) (p : List Char) (q : Nat) (r : Bool)
    (l : List Effect) (h : t' ≠ t) :
    publishes_on t (Effect.publish t' p q r :: l) = publishes_on t l := by
  simp [publishes_on, h]

theorem publishes_on_set_temp_error_none (n : Nat) (st : ErrCaches) (t : String)
    (h : t ≠ TOPIC_TEMP_ERROR) : publishes_on t (set_temp_error n st none).2 = [] := by
  rw [set_temp_error_none]
  split
  · rfl
  · rw [publishes_on_cons_other _ _ _ _ _ _ (Ne.symm h)]; rfl

theorem publishes_on_set_co2_error_none (n : Nat) (st : ErrCaches) (t : String)
    (h : t ≠ TOPIC_CO2_ERROR) : publishes_on t (set_co2_error n st none).2 = [] := by
  rw [set_co2_error_none]
  split
  · rfl
  · rw [publishes_on_cons_other _ _ _ _ _ _ (Ne.symm h)]; rfl

theorem device_loop_while_append (n : Nat) (pre l : List ReadOutcome) :
    ∀ st : ErrCaches, (device_loop_while n st pre).returned = false →
      device_loop_while n st (pre ++ l) =
        { caches := (device_loop_while n (device_loop_while n st pre).caches l).caches,
          effects := (device_loop_while n st pre).effects ++
            (device_loop_while n (device_loop_while n st pre).caches l).effects,
          returned := (device_loop_while n (device_loop_while n st pre).caches l).returned,
          unread := (device_loop_while n (device_loop_while n st pre).caches l).unread } := by
  induction pre with
  | nil => intro st _; simp [device_loop_while]
  | cons rd rds ih =>
    intro st h
    by_cases hb : (loop_body n st rd).brk = true
    · simp [device_loop_while, hb] at h
    · simp only [device_loop_while, hb] at h
      have := ih (loop_body n st rd).caches (by simpa using h)
      simp only [List.cons_append, device_loop_while, hb]
      simp [this]

theorem loop_body_no_device (n : Nat) (st : ErrCaches) (rd : ReadOutcome)
    (hr : rd.r = LIBUSB_ERROR_NO_DEVICE) :
    loop_body n st rd =
      { caches := (set_errors n st).1, effects := (set_errors n st).2, brk := true } := by
  unfold loop_body
  rw [if_pos hr]

theorem publishes_on_temp_error_set_errors (n : Nat) (st : ErrCaches) :
    publishes_on TOPIC_TEMP_ERROR (set_errors n st).2 =
      if cstr st.temp = ['r'] then [] else [Effect.publish TOPIC_TEMP_ERROR ['r'] 2 true] := by
  have hne : TOPIC_CO2_ERROR ≠ TOPIC_TEMP_ERROR := by decide
  rw [set_errors_effects]
  by_cases h1 : cstr st.temp = ['r'] <;> by_cases h2 : cstr st.co2 = ['r'] <;>
    simp [h1, h2, publishes_on, hne]

theorem publishes_on_co2_error_set_errors (n : Nat) (st : ErrCaches) :
    publishes_on TOPIC_CO2_ERROR (set_errors n st).2 =
      if cstr st.co2 = ['r'] then [] else [Effect.publish TOPIC_CO2_ERROR ['r'] 2 true] := by
  have hne : TOPIC_TEMP_ERROR ≠ TOPIC_CO2_ERROR := by decide
  rw [set_errors_effects]
  by_cases h1 : cstr st.temp = ['r'] <;> by_cases h2 : cstr st.co2 = ['r'] <;>
    simp [h1, h2, publishes_on, hne]

theorem loop_body_rejected (n : Nat) (st : ErrCaches) (rd : ReadOutcome) (hr : 0 < rd.r)
    (hbad : byte rd.result 4 ≠ 0x0d ∨
      byte rd.result 3 ≠ (byte rd.result 0 + byte rd.result 1 + byte rd.result 2) % 256) :
    loop_body n st rd =
      { caches := (set_errors n st).1, effects := (set_errors n st).2, brk := false } := by
  have hnd : rd.r ≠ LIBUSB_ERROR_NO_DEVICE := by
    intro h; rw [h] at hr; exact absurd hr (by decide)
  have hpos : ¬ rd.r ≤ 0 := not_le.mpr hr
  unfold loop_body
  rw [if_neg hnd, if_neg hpos]
  by_cases h4 : byte rd.result 4 ≠ 0x0d
  · rw [if_pos h4]
  · rw [if_neg h4]
    have h3 : (byte rd.result 0 + byte rd.result 1 + byte rd.result 2) % 256
        ≠ byte rd.result 3 := by
      rcases hbad with h | h
      · exact absurd h h4
      · exact fun e => h e.symm
    rw [if_pos h3]

theorem temp_frame_body (n : Nat) (r1 : Int) (t1 : List Nat) (h1 : 0 < r1) :
    loop_body n ErrCaches.init { r := r1, result := 0x42 :: 0x10 :: 0x00 :: 0x52 :: 0x0d :: t1 } =
      { caches := ErrCaches.init,
        effects := [Effect.publish TOPIC_TEMP ['-', '1', '7', '.', '1'] 2 true],
        brk := false } := by
  have hb := loop_body_valid n ErrCaches.init
    { r := r1, result := 0x42 :: 0x10 :: 0x00 :: 0x52 :: 0x0d :: t1 } h1
    (by simp [byte]) (by simp [byte])
  have b0 : byte (0x42 :: 0x10 :: 0x00 :: 0x52 :: 0x0d :: t1) 0 = 0x42 := by simp [byte]
  have bw : byte (0x42 :: 0x10 :: 0x00 :: 0x52 :: 0x0d :: t1) 1 * 256
      + byte (0x42 :: 0x10 :: 0x00 :: 0x52 :: 0x0d :: t1) 2 = 4096 := by simp [byte]
  have hs : set_temp_error n ErrCaches.init none = (ErrCaches.init, []) := by
    rw [set_temp_error_none, if_pos (by decide)]
  rw [hb]
  simp only [b0, bw, switch_stmt_temp, hs, payload_4096]

theorem co2_frame_body (n : Nat) (r2 : Int) (t2 : List Nat) (h2 : 0 < r2) :
    loop_body n ErrCaches.init { r := r2, result := 0x50 :: 0x0b :: 0xb8 :: 0x13 :: 0x0d :: t2 } =
      { caches := ErrCaches.init,
        effects := [Effect.publish TOPIC_CO2 ['3', '0', '0', '0'] 2 true],
        brk := false } := by
  have hb := loop_body_valid n ErrCaches.init
    { r := r2, result := 0x50 :: 0x0b :: 0xb8 :: 0x13 :: 0x0d :: t2 } h2
    (by simp [byte]) (by simp [byte])
  have b0 : byte (0x50 :: 0x0b :: 0xb8 :: 0x13 :: 0x0d :: t2) 0 = 0x50 := by simp [byte]
  have bw : byte (0x50 :: 0x0b :: 0xb8 :: 0x13 :: 0x0d :: t2) 1 * 256
      + byte (0x50 :: 0x0b :: 0xb8 :: 0x13 :: 0x0d :: t2) 2 = 3000 := by simp [byte]
  have hs : set_co2_error n ErrCaches.init none = (ErrCaches.init, []) := by
    rw [set_co2_error_none, if_pos (by decide)]
  have hd : Nat.toDigits 10 3000 = ['3', '0', '0', '0'] := by decide
  rw [hb]
  simp only [b0, bw, switch_stmt_co2 _ _ _ (by decide : 3000 < 65536), hs, hd]
  simp

theorem bad_co2_frame_body (n : Nat) (r2 : Int) (t2 : List Nat) (h2 : 0 < r2) :
    (loop_body n ErrCaches.init
        { r := r2, result := 0x50 :: 0x0b :: 0xb8 :: 0xff :: 0x0d :: t2 }).effects =
      [Effect.publish TOPIC_TEMP_ERROR ['r'] 2 true,
       Effect.publish TOPIC_CO2_ERROR ['r'] 2 true]
    ∧ (loop_body n ErrCaches.init
        { r := r2, result := 0x50 :: 0x0b :: 0xb8 :: 0xff :: 0x0d :: t2 }).brk = false := by
  have hb := loop_body_rejected n ErrCaches.init
    { r := r2, result := 0x50 :: 0x0b :: 0xb8 :: 0xff :: 0x0d :: t2 } h2
    (Or.inr (by simp [byte]))
  rw [hb]
  refine ⟨?_, rfl⟩
  show (set_errors n ErrCaches.init).2 = _
  rw [set_errors_effects, if_neg (by decide), if_neg (by decide)]
  rfl

theorem two_frames_corrected (n : Nat) (r1 r2 : Int) (t1 t2 : List Nat) (h1 : 0 < r1)
    (h2 : 0 < r2) :
    (device_loop n ErrCaches.init true
      [{ r := r1, result := 0x42 :: 0x10 :: 0x00 :: 0x52 :: 0x0d :: t1 },
       { r := r2, result := 0x50 :: 0x0b :: 0xb8 :: 0x13 :: 0x0d :: t2 }]).effects =
      [Effect.publish TOPIC_TEMP ['-', '1', '7', '.', '1'] 2 true,
       Effect.publish TOPIC_CO2 ['3', '0', '0', '0'] 2 true] := by
  simp only [device_loop, device_loop_while, temp_frame_body n r1 t1 h1,
    co2_frame_body n r2 t2 h2]
  simp

theorem two_frames_as_given (n : Nat) (r1 r2 : Int) (t1 t2 : List Nat) (h1 : 0 < r1)
    (h2 : 0 < r2) :
    (device_loop n ErrCaches.init true
      [{ r := r1, result := 0x42 :: 0x10 :: 0x00 :: 0x52 :: 0x0d :: t1 },
       { r := r2, result := 0x50 :: 0x0b :: 0xb8 :: 0xff :: 0x0d :: t2 }]).effects =
      [Effect.publish TOPIC_TEMP ['-', '1', '7', '.', '1'] 2 true,
       Effect.publish TOPIC_TEMP_ERROR ['r'] 2 true,
       Effect.publish TOPIC_CO2_ERROR ['r'] 2 true] := by
  have hb := bad_co2_frame_body n r2 t2 h2
  simp only [device_loop, device_loop_while, temp_frame_body n r1 t1 h1, hb.1, hb.2]
  simp

theorem cache_ok_facts (c : List Char) (h : cache_ok c) :
    (cstr c = [] ∨ cstr c = ['r']) ∧ c.length = 100 ∧ strlen c < 100 := by
  rcases h with rfl | rfl
  · exact ⟨Or.inl (by decide), by decide, by decide⟩
  · exact ⟨Or.inr (by decide), by decide, by decide⟩

theorem strncpy_r_ok (c : List Char) (n : Nat) (h1 : 1 ≤ n) (h100 : n ≤ 100) (h : cache_ok c) :
    strncpy c ['r'] n = 'r' :: List.replicate 99 NUL := by
  obtain ⟨k, rfl⟩ : ∃ k, n = k + 1 := ⟨n - 1, by omega⟩
  have hc : cstr ['r'] = ['r'] := by decide
  have hdrop : c.drop (k + 1) = List.replicate (99 - k) NUL := by
    rcases h with rfl | rfl
    · rw [List.drop_replicate]
      congr 1
      omega
    · rw [List.drop_succ_cons, List.drop_replicate]
  simp only [strncpy, hc, hdrop]
  simp only [List.take_succ_cons, List.take_nil, List.length_cons, List.length_nil,
    List.take_zero, List.cons_append, List.nil_append]
  rw [List.append_replicate_replicate]
  congr 2
  omega

theorem cache_ok_clear (n : Nat) (control : String) (c : List Char) (h : cache_ok c) :
    cache_ok (_set_control_error n control c none).1 := by
  rcases h with rfl | rfl
  · left
    rw [set_control_error_none_of_eq _ _ _ (by decide)]
  · left
    rw [set_control_error_none_of_ne _ _ _ (by decide)]
    show ('r' :: List.replicate 99 NUL).set 0 NUL = List.replicate 100 NUL
    decide

theorem errors_ok_nil : errors_ok [] := by
  intro t p q r h
  simp at h

theorem errors_ok_append (l1 l2 : List Effect) (h1 : errors_ok l1) (h2 : errors_ok l2) :
    errors_ok (l1 ++ l2) := by
  intro t p q r h ht
  rcases List.mem_append.mp h with h | h
  · exact h1 t p q r h ht
  · exact h2 t p q r h ht

theorem errors_ok_cons (x : Effect) (l : List Effect) (h1 : errors_ok [x]) (h2 : errors_ok l) :
    errors_ok (x :: l) :=
  errors_ok_append [x] l h1 h2

theorem errors_ok_set_errors (n : Nat) (st : ErrCaches) : errors_ok (set_errors n st).2 := by
  intro t p q r h _
  rcases set_errors_mem n st _ h with e | e
  · injection e with _ hp; exact Or.inl hp
  · injection e with _ hp; exact Or.inl hp

theorem caches_ok_set_errors (n : Nat) (st : ErrCaches) (h1 : 1 ≤ n) (h100 : n ≤ 100)
    (h : caches_ok st) : caches_ok (set_errors n st).1 := by
  rw [set_errors_caches]
  constructor
  · show cache_ok (if cstr st.temp = ['r'] then st.temp else strncpy st.temp ['r'] n)
    split
    · exact h.1
    · exact Or.inr (strncpy_r_ok _ n h1 h100 h.1)
  · show cache_ok (if cstr st.co2 = ['r'] then st.co2 else strncpy st.co2 ['r'] n)
    split
    · exact h.2
    · exact Or.inr (strncpy_r_ok _ n h1 h100 h.2)

theorem errors_ok_sleep (k : Nat) : errors_ok [Effect.sleep k] := by
  intro t p q r h
  simp at h

theorem errors_ok_close : errors_ok [Effect.close_device] := by
  intro t p q r h
  simp at h

theorem errors_ok_publish (t : String) (p : List Char) (q : Nat) (r : Bool)
    (h : (t ≠ TOPIC_TEMP_ERROR ∧ t ≠ TOPIC_CO2_ERROR) ∨ p = ['r'] ∨ p = []) :
    errors_ok [Effect.publish t p q r] := by
  intro t' p' q' r' hmem ht
  rw [List.mem_singleton] at hmem
  injection hmem with e1 e2
  subst e1 e2
  rcases h with ⟨a, b⟩ | h
  · rcases ht with ht | ht
    · exact absurd ht a
    · exact absurd ht b
  · exact h

theorem switch_stmt_ok (n : Nat) (st : ErrCaches) (r0 w : Nat) (hw : w < 65536)
    (h : caches_ok st) :
    caches_ok (switch_stmt n st r0 w).1 ∧ errors_ok (switch_stmt n st r0 w).2 := by
  by_cases c1 : r0 = 0x42
  · subst c1
    rw [switch_stmt_temp, set_temp_error_none]
    split
    · exact ⟨h, errors_ok_publish _ _ _ _ (Or.inl ⟨by decide, by decide⟩)⟩
    · refine ⟨⟨?_, h.2⟩, ?_⟩
      · have := cache_ok_clear n "temp" st.temp h.1
        rw [set_control_error_none_of_ne _ _ _ (by assumption)] at this
        exact this
      · exact errors_ok_cons _ _ (errors_ok_publish _ _ _ _ (Or.inl ⟨by decide, by decide⟩))
          (errors_ok_publish _ _ _ _ (Or.inr (Or.inr rfl)))
  · by_cases c2 : r0 = 0x50
    · subst c2
      rw [switch_stmt_co2 _ _ _ hw, set_co2_error_none]
      split
      · exact ⟨h, errors_ok_nil⟩
      · split
        · exact ⟨h, errors_ok_publish _ _ _ _ (Or.inl ⟨by decide, by decide⟩)⟩
        · refine ⟨⟨h.1, ?_⟩, ?_⟩
          · have := cache_ok_clear n "co2" st.co2 h.2
            rw [set_control_error_none_of_ne _ _ _ (by assumption)] at this
            exact this
          · exact errors_ok_cons _ _
              (errors_ok_publish _ _ _ _ (Or.inl ⟨by decide, by decide⟩))
              (errors_ok_publish _ _ _ _ (Or.inr (Or.inr rfl)))
    · rw [switch_stmt_other _ _ _ _ c1 c2]
      exact ⟨h, errors_ok_nil⟩

theorem loop_body_ok (n : Nat) (st : ErrCaches) (rd : ReadOutcome) (h1 : 1 ≤ n)
    (h100 : n ≤ 100) (h : caches_ok st) :
    caches_ok (loop_body n st rd).caches ∧ errors_ok (loop_body n st rd).effects := by
  have hs := caches_ok_set_errors n st h1 h100 h
  have he := errors_ok_set_errors n st
  unfold loop_body
  split
  · exact ⟨hs, he⟩
  · split
    · exact ⟨hs, errors_ok_append _ _ he (errors_ok_sleep 1)⟩
    · split
      · exact ⟨hs, he⟩
      · split
        · exact ⟨hs, he⟩
        · exact switch_stmt_ok n st _ _ (Nat.mod_lt _ (by decide)) h

theorem device_loop_while_ok (n : Nat) (h1 : 1 ≤ n) (h100 : n ≤ 100) (reads : List ReadOutcome) :
    ∀ st : ErrCaches, caches_ok st →
      caches_ok (device_loop_while n st reads).caches ∧
      errors_ok (device_loop_while n st reads).effects := by
  induction reads with
  | nil => intro st h; exact ⟨h, errors_ok_nil⟩
  | cons rd rds ih =>
    intro st h
    have hb := loop_body_ok n st rd h1 h100 h
    have hrec := ih _ hb.1
    simp only [device_loop_while]
    split
    · exact hb
    · exact ⟨hrec.1, errors_ok_append _ _ hb.2 hrec.2⟩

theorem device_loop_ok (n : Nat) (h1 : 1 ≤ n) (h100 : n ≤ 100) (st : ErrCaches)
    (magic_sent : Bool) (reads : List ReadOutcome) (h : caches_ok st) :
    caches_ok (device_loop n st magic_sent reads).caches ∧
    errors_ok (device_loop n st magic_sent reads).effects := by
  unfold device_loop
  split
  · exact ⟨caches_ok_set_errors n st h1 h100 h, errors_ok_set_errors n st⟩
  · exact device_loop_while_ok n h1 h100 reads st h

theorem monitor_loop_ok (n : Nat) (h1 : 1 ≤ n) (h100 : n ≤ 100) (opens : List (Option Session)) :
    ∀ st : ErrCaches, caches_ok st →
      caches_ok (monitor_loop n st opens).1 ∧ errors_ok (monitor_loop n st opens).2 := by
  induction opens with
  | nil => intro st h; exact ⟨h, errors_ok_nil⟩
  | cons o rest ih =>
    intro st h
    cases o with
    | none =>
      have hs := caches_ok_set_errors n st h1 h100 h
      have he := errors_ok_set_errors n st
      have hrec := ih _ hs
      simp only [monitor_loop]
      refine ⟨hrec.1, ?_⟩
      exact errors_ok_append _ _ (errors_ok_append _ _ he (errors_ok_sleep 1)) hrec.2
    | some s =>
      have hd := device_loop_ok n h1 h100 st s.magic_sent s.reads h
      have hrec := ih _ hd.1
      simp only [monitor_loop]
      split
      · refine ⟨hrec.1, ?_⟩
        exact errors_ok_append _ _
          (errors_ok_append _ _ hd.2
            (errors_ok_cons _ _ errors_ok_close (errors_ok_sleep 1))) hrec.2
      · exact hd

theorem caches_ok_report (n : Nat) (ch : Channel) (st : ErrCaches)
    (err : Option (List Char)) (h1 : 1 ≤ n) (h100 : n ≤ 100)
    (herr : err = some ['r'] ∨ err = none) (h : caches_ok st) :
    caches_ok (report n ch st err).1 := by
  have key : ∀ (control : String) (c : List Char), cache_ok c →
      cache_ok (_set_control_error n control c err).1 := by
    intro control c hc
    rcases herr with rfl | rfl
    · rw [set_control_error_r]
      split
      · exact hc
      · exact Or.inr (strncpy_r_ok c n h1 h100 hc)
    · exact cache_ok_clear n control c hc
  cases ch
  · exact ⟨key "temp" st.temp h.1, h.2⟩
  · exact ⟨h.1, key "co2" st.co2 h.2⟩

theorem caches_ok_init : caches_ok ErrCaches.init :=
  ⟨Or.inl rfl, Or.inl rfl⟩

theorem toDouble_dyadic (q : ℚ) : ∃ (n j : ℤ), toDouble q = (n : ℚ) * 2 ^ j := by
  by_cases hq : q = 0
  · exact ⟨0, 0, by simp [toDouble, hq]⟩
  · exact ⟨roundHalfEven (q / 2 ^ (Int.log 2 |q| - 52)), Int.log 2 |q| - 52, by
      simp [toDouble, hq]⟩

theorem dyadic_ne_of_five (n j a : ℤ) (ha : ¬ (5 : ℤ) ∣ a) :
    (n : ℚ) * 2 ^ j ≠ (a : ℚ) / 80 := by
  have p5 : Prime (5 : ℤ) := by norm_num
  have h52 : ∀ m : ℕ, ¬ (5 : ℤ) ∣ 2 ^ m := by
    intro m hd
    have := p5.dvd_of_dvd_pow hd
    norm_num at this
  intro h
  obtain ⟨m, rfl | rfl⟩ := Int.eq_nat_or_neg j
  · rw [zpow_natCast] at h
    have h2 : (n : ℚ) * 2 ^ m * 80 = a := by
      rw [h]; ring
    have h3 : n * 2 ^ m * 80 = a := by exact_mod_cast h2
    exact ha ⟨n * 2 ^ m * 16, by rw [← h3]; ring⟩
  · rw [zpow_neg, zpow_natCast] at h
    have hp : (2 : ℚ) ^ m ≠ 0 := by positivity
    have h2 : (n : ℚ) * 80 = a * 2 ^ m := by
      field_simp at h
      linarith
    have h3 : n * 80 = a * 2 ^ m := by exact_mod_cast h2
    have h4 : (5 : ℤ) ∣ a * 2 ^ m := ⟨n * 16, by rw [← h3]; ring⟩
    rcases p5.dvd_or_dvd h4 with h5 | h5
    · exact ha h5
    · exact h52 m h5

theorem decode_temperature_ne (w : Nat) :
    decode_temperature w ≠ (w : ℚ) * 0.0625 - 273.15 := by
  obtain ⟨n, j, hn⟩ := toDouble_dyadic
    (toDouble (((w % 65536 : Nat) : ℚ) * toDouble 0.0625) - toDouble 273.15)
  have he : (w : ℚ) * 0.0625 - 273.15 = ((5 * (w : ℤ) - 21852 : ℤ) : ℚ) / 80 := by
    push_cast
    norm_num
    ring
  unfold decode_temperature
  rw [hn, he]
  apply dyadic_ne_of_five
  omega

theorem fmt_exact_17_15 : fmt_2_1f (-17.15) = ['-', '1', '7', '.', '2'] := by
  have hneg : (-17.15 : ℚ) < 0 := by norm_num
  have hfl : ⌊(|(-17.15 : ℚ)| * 10)⌋ = 171 := by
    rw [abs_of_neg hneg, Int.floor_eq_iff]
    constructor <;> norm_num
  have hr : roundHalfEven (|(-17.15 : ℚ)| * 10) = 172 := by
    unfold roundHalfEven
    rw [hfl, abs_of_neg hneg]
    norm_num
  unfold fmt_2_1f
  rw [hr, if_pos hneg]
  decide

/-- What the bounded copy does achieve: for an error string that it stores
whole with its terminator (`strlen e < ptr_size`, as is "r"), the second of
two consecutive reports of `e` on a channel publishes nothing and leaves the
caches unchanged; from the initial state, "r" reported twice on "co2" gives
one notification and then none. -/
theorem report_twice_of_short (ptr_size : Nat) (ch : Channel) (st : ErrCaches) (e : List Char)
    (h : strlen e < ptr_size) :
    report ptr_size ch (report ptr_size ch st (some e)).1 (some e)
        = ((report ptr_size ch st (some e)).1, [])
    ∧ ((report ptr_size ch st (some e)).2 ++
        (report ptr_size ch (report ptr_size ch st (some e)).1 (some e)).2).length ≤ 1
    ∧ (e = ['r'] →
        (report ptr_size Channel.co2 ErrCaches.init (some e)).2
          = [Effect.publish "homeassistant/sensor/co2mon/co2/error" ['r'] 2 true]
        ∧ (report ptr_size Channel.co2
            (report ptr_size Channel.co2 ErrCaches.init (some e)).1 (some e)).2 = []) := by
  have key : ∀ c : Channel,
      report ptr_size c (report ptr_size c st (some e)).1 (some e)
        = ((report ptr_size c st (some e)).1, []) := by
    intro c
    cases c
    · simp only [report, set_temp_error,
        set_control_error_twice ptr_size "temp" st.temp e h]
    · simp only [report, set_co2_error,
        set_control_error_twice ptr_size "co2" st.co2 e h]
  have len : ∀ c : Channel, (report ptr_size c st (some e)).2.length ≤ 1 := by
    intro c
    cases c
    · exact set_control_error_length ptr_size "temp" st.temp (some e)
    · exact set_control_error_length ptr_size "co2" st.co2 (some e)
  refine ⟨key ch, ?_, ?_⟩
  · rw [key ch]
    simpa using len ch
  · intro he
    subst he
    constructor
    · have hne : cstr ErrCaches.init.co2 ≠ cstr ['r'] := by decide
      have hp : publish_mqtt_error "co2" (some ['r'])
          = Effect.publish "homeassistant/sensor/co2mon/co2/error" ['r'] 2 true := by decide
      simp [report, set_co2_error, _set_control_error, hne, hp]
    · have h3 := set_control_error_twice ptr_size "co2" ErrCaches.init.co2 ['r'] h
      simp only [report, set_co2_error]
      rw [h3]

/-! ## Claims -/

/-- Claim C1, counterexample: with the bytes as given, the checksum byte `0xff`
of the second frame is not `(0x50 + 0x0b + 0xb8) mod 256 = 0x13`; starting with
empty caches, `device_loop` publishes one measurement (temperature) and then
the error "r" on both error topics, and no CO2 measurement. -/
theorem two_frames_as_given_error_published :
    (device_loop 8 ErrCaches.init true
      [{ r := 8, result := [0x42, 0x10, 0x00, 0x52, 0x0d, 0, 0, 0] },
       { r := 8, result := [0x50, 0x0b, 0xb8, 0xff, 0x0d, 0, 0, 0] }]).effects =
      [Effect.publish "homeassistant/sensor/co2mon/temp" ['-', '1', '7', '.', '1'] 2 true,
       Effect.publish "homeassistant/sensor/co2mon/temp/error" ['r'] 2 true,
       Effect.publish "homeassistant/sensor/co2mon/co2/error" ['r'] 2 true] :=
  two_frames_as_given 8 8 8 [0, 0, 0] [0, 0, 0] (by decide) (by decide)

/-- Claim C1, amended: processing `[0x42, 0x10, 0x00, 0x52, 0x0d, ..]` and then
`[0x50, 0x0b, 0xb8, 0x13, 0x0d, ..]` (checksum byte `0x13`) in `device_loop`,
starting with both caches empty, makes exactly two publishes, the temperature
"-17.1" on `homeassistant/sensor/co2mon/temp` and then the CO2 value "3000" on
`homeassistant/sensor/co2mon/co2`, and none on an error topic; with the
checksum byte `0xff` the second frame is rejected and "r" is published on both
error topics instead of the CO2 measurement. -/
theorem two_frames_published (ptr_size : Nat) (r1 r2 : Int) (t1 t2 : List Nat)
    (h1 : 0 < r1)
    (h2 : 0 < r2) :
    (device_loop ptr_size ErrCaches.init true
        [{ r := r1, result := 0x42 :: 0x10 :: 0x00 :: 0x52 :: 0x0d :: t1 },
         { r := r2, result := 0x50 :: 0x0b :: 0xb8 :: 0x13 :: 0x0d :: t2 }]).effects =
        [Effect.publish "homeassistant/sensor/co2mon/temp" ['-', '1', '7', '.', '1'] 2 true,
         Effect.publish "homeassistant/sensor/co2mon/co2" ['3', '0', '0', '0'] 2 true]
    ∧ (device_loop ptr_size ErrCaches.init true
        [{ r := r1, result := 0x42 :: 0x10 :: 0x00 :: 0x52 :: 0x0d :: t1 },
         { r := r2, result := 0x50 :: 0x0b :: 0xb8 :: 0xff :: 0x0d :: t2 }]).effects =
        [Effect.publish "homeassistant/sensor/co2mon/temp" ['-', '1', '7', '.', '1'] 2 true,
         Effect.publish "homeassistant/sensor/co2mon/temp/error" ['r'] 2 true,
         Effect.publish "homeassistant/sensor/co2mon/co2/error" ['r'] 2 true] :=
  ⟨two_frames_corrected ptr_size r1 r2 t1 t2 h1 h2,
   two_frames_as_given ptr_size r1 r2 t1 t2 h1 h2⟩

/-- Claim C1, the amended statement on 8-byte frames with 8-byte pointers. -/
theorem two_frames_published_witness :
    (0 < (8 : Int)) ∧
    (0 < (8 : Int)) ∧
    ((device_loop 8 ErrCaches.init true
        [{ r := (8 : Int), result := 0x42 :: 0x10 :: 0x00 :: 0x52 :: 0x0d :: [0, 0, 0] },
         { r := (8 : Int), result := 0x50 :: 0x0b :: 0xb8 :: 0x13 :: 0x0d :: [0, 0, 0] }]).effects =
        [Effect.publish "homeassistant/sensor/co2mon/temp" ['-', '1', '7', '.', '1'] 2 true,
         Effect.publish "homeassistant/sensor/co2mon/co2" ['3', '0', '0', '0'] 2 true]
    ∧ (device_loop 8 ErrCaches.init true
        [{ r := (8 : Int), result := 0x42 :: 0x10 :: 0x00 :: 0x52 :: 0x0d :: [0, 0, 0] },
         { r := (8 : Int), result := 0x50 :: 0x0b :: 0xb8 :: 0xff :: 0x0d :: [0, 0, 0] }]).effects =
        [Effect.publish "homeassistant/sensor/co2mon/temp" ['-', '1', '7', '.', '1'] 2 true,
         Effect.publish "homeassistant/sensor/co2mon/temp/error" ['r'] 2 true,
         Effect.publish "homeassistant/sensor/co2mon/co2/error" ['r'] 2 true]) :=
  ⟨by decide, by decide, two_frames_published 8 8 8 [0, 0, 0] [0, 0, 0] (by decide) (by decide)⟩

/-- Claim C3: a frame delivered by a successful read (`0 < r`) whose byte 4 is not
`0x0d` or whose byte 3 is not `(byte0 + byte1 + byte2) mod 256` is rejected:
the pass through the loop does what `set_errors` does (the error "r" reported
on the temp and on the co2 channel) and nothing else, so nothing is published
on a measurement topic, and the loop goes on with the next read (no `break`, no
`sleep`, the device is not closed). -/
theorem frame_rejected (ptr_size : Nat) (st : ErrCaches) (rd : ReadOutcome)
    (rest : List ReadOutcome)
    (hr : 0 < rd.r)
    (hbad : byte rd.result 4 ≠ 0x0d ∨
      byte rd.result 3 ≠ (byte rd.result 0 + byte rd.result 1 + byte rd.result 2) % 256) :
    loop_body ptr_size st rd =
        { caches := (set_errors ptr_size st).1, effects := (set_errors ptr_size st).2,
          brk := false }
    ∧ set_errors ptr_size st =
        ((set_co2_error ptr_size (set_temp_error ptr_size st (some ['r'])).1 (some ['r'])).1,
         (set_temp_error ptr_size st (some ['r'])).2 ++
           (set_co2_error ptr_size (set_temp_error ptr_size st (some ['r'])).1 (some ['r'])).2)
    ∧ publishes_on TOPIC_TEMP (loop_body ptr_size st rd).effects = []
    ∧ publishes_on TOPIC_CO2 (loop_body ptr_size st rd).effects = []
    ∧ (∀ x ∈ (loop_body ptr_size st rd).effects,
        x = Effect.publish TOPIC_TEMP_ERROR ['r'] 2 true ∨
        x = Effect.publish TOPIC_CO2_ERROR ['r'] 2 true)
    ∧ device_loop_while ptr_size st (rd :: rest) =
        { caches := (device_loop_while ptr_size (set_errors ptr_size st).1 rest).caches,
          effects := (set_errors ptr_size st).2 ++
            (device_loop_while ptr_size (set_errors ptr_size st).1 rest).effects,
          returned := (device_loop_while ptr_size (set_errors ptr_size st).1 rest).returned,
          unread := (device_loop_while ptr_size (set_errors ptr_size st).1 rest).unread } := by
  have hbody := loop_body_rejected ptr_size st rd hr hbad
  refine ⟨hbody, rfl, ?_, ?_, ?_, ?_⟩
  · rw [hbody]
    exact publishes_on_set_errors ptr_size st TOPIC_TEMP (by decide) (by decide)
  · rw [hbody]
    exact publishes_on_set_errors ptr_size st TOPIC_CO2 (by decide) (by decide)
  · rw [hbody]
    exact set_errors_mem ptr_size st
  · simp only [device_loop_while, hbody]
    simp

/-- Claim C3 on the frame `50 0b b8 ff 0d ..` followed by a temperature frame. -/
theorem frame_rejected_witness :
    (0 < frame_bad_checksum.r) ∧
    (byte frame_bad_checksum.result 4 ≠ 0x0d ∨
      byte frame_bad_checksum.result 3 ≠ (byte frame_bad_checksum.result 0 + byte
          frame_bad_checksum.result 1 + byte frame_bad_checksum.result 2) % 256) ∧
    (loop_body 8 ErrCaches.init frame_bad_checksum =
        { caches := (set_errors 8 ErrCaches.init).1, effects := (set_errors 8 ErrCaches.init).2,
          brk := false }
    ∧ set_errors 8 ErrCaches.init =
        ((set_co2_error 8 (set_temp_error 8 ErrCaches.init (some ['r'])).1 (some ['r'])).1,
         (set_temp_error 8 ErrCaches.init (some ['r'])).2 ++
           (set_co2_error 8 (set_temp_error 8 ErrCaches.init (some ['r'])).1 (some ['r'])).2)
    ∧ publishes_on TOPIC_TEMP (loop_body 8 ErrCaches.init frame_bad_checksum).effects = []
    ∧ publishes_on TOPIC_CO2 (loop_body 8 ErrCaches.init frame_bad_checksum).effects = []
    ∧ (∀ x ∈ (loop_body 8 ErrCaches.init frame_bad_checksum).effects,
        x = Effect.publish TOPIC_TEMP_ERROR ['r'] 2 true ∨
        x = Effect.publish TOPIC_CO2_ERROR ['r'] 2 true)
    ∧ device_loop_while 8 ErrCaches.init (frame_bad_checksum :: [frame_temp_4096]) =
        { caches := (device_loop_while 8 (set_errors 8 ErrCaches.init).1 [frame_temp_4096]).caches,
          effects := (set_errors 8 ErrCaches.init).2 ++
            (device_loop_while 8 (set_errors 8 ErrCaches.init).1 [frame_temp_4096]).effects,
          returned := (device_loop_while 8 (set_errors 8 ErrCaches.init).1
              [frame_temp_4096]).returned,
          unread := (device_loop_while 8 (set_errors 8 ErrCaches.init).1
              [frame_temp_4096]).unread }) :=
  ⟨by decide, by decide,
   frame_rejected 8 ErrCaches.init frame_bad_checksum [frame_temp_4096] (by decide) (by decide)⟩

/-- Claim C4: a frame delivered by a successful read whose byte 4 is `0x0d` and
whose byte 3 is `(byte0 + byte1 + byte2) mod 256` passes the checks: the pass
through the loop is the `switch` on the code `byte0` and the word
`byte1 * 256 + byte2`, which is the value of `(result[1] << 8) + result[2]` as
a `uint16_t` and lies in `0..65535`, and the error "r" is published on no
channel. -/
theorem frame_accepted (ptr_size : Nat) (st : ErrCaches) (rd : ReadOutcome)
    (hr : 0 < rd.r)
    (h4 : byte rd.result 4 = 0x0d)
    (h3 : byte rd.result 3 = (byte rd.result 0 + byte rd.result 1 + byte rd.result 2) % 256) :
    loop_body ptr_size st rd =
        { caches := (switch_stmt ptr_size st (byte rd.result 0)
            (byte rd.result 1 * 256 + byte rd.result 2)).1,
          effects := (switch_stmt ptr_size st (byte rd.result 0)
            (byte rd.result 1 * 256 + byte rd.result 2)).2,
          brk := false }
    ∧ ((byte rd.result 1 <<< 8) + byte rd.result 2) % 65536
        = byte rd.result 1 * 256 + byte rd.result 2
    ∧ byte rd.result 1 * 256 + byte rd.result 2 ≤ 65535
    ∧ Effect.publish TOPIC_TEMP_ERROR ['r'] 2 true ∉ (loop_body ptr_size st rd).effects
    ∧ Effect.publish TOPIC_CO2_ERROR ['r'] 2 true ∉ (loop_body ptr_size st rd).effects := by
  have hb := loop_body_valid ptr_size st rd hr h4 h3
  have hw := word_lt rd.result
  have key : ∀ t, (t = TOPIC_TEMP_ERROR ∨ t = TOPIC_CO2_ERROR) →
      Effect.publish t ['r'] 2 true ∉ (switch_stmt ptr_size st (byte rd.result 0)
            (byte rd.result 1 * 256 + byte rd.result 2)).2 := by
    intro t ht hmem
    have ht1 : t ≠ TOPIC_TEMP := by rcases ht with rfl | rfl <;> decide
    have ht2 : t ≠ TOPIC_CO2 := by rcases ht with rfl | rfl <;> decide
    by_cases c1 : byte rd.result 0 = 0x42
    · rw [c1, switch_stmt_temp, set_temp_error_none] at hmem
      split at hmem <;> simp [ht1] at hmem
    · by_cases c2 : byte rd.result 0 = 0x50
      · rw [c2, switch_stmt_co2 _ _ _ hw, set_co2_error_none] at hmem
        split at hmem
        · simp at hmem
        · split at hmem <;> simp [ht2] at hmem
      · rw [switch_stmt_other _ _ _ _ c1 c2] at hmem
        simp at hmem
  refine ⟨hb, word_eq _ _ (byte_lt _ _) (byte_lt _ _), by omega, ?_, ?_⟩
  · rw [hb]; exact key _ (Or.inl rfl)
  · rw [hb]; exact key _ (Or.inr rfl)

/-- Claim C4 on the frame `50 0b b8 13 0d ..`. -/
theorem frame_accepted_witness :
    (0 < frame_co2_3000.r) ∧
    (byte frame_co2_3000.result 4 = 0x0d) ∧
    (byte frame_co2_3000.result 3 = (byte frame_co2_3000.result 0 + byte frame_co2_3000.result 1
        + byte frame_co2_3000.result 2) % 256) ∧
    (loop_body 8 ErrCaches.init frame_co2_3000 =
        { caches := (switch_stmt 8 ErrCaches.init (byte frame_co2_3000.result 0)
            (byte frame_co2_3000.result 1 * 256 + byte frame_co2_3000.result 2)).1,
          effects := (switch_stmt 8 ErrCaches.init (byte frame_co2_3000.result 0)
            (byte frame_co2_3000.result 1 * 256 + byte frame_co2_3000.result 2)).2,
          brk := false }
    ∧ ((byte frame_co2_3000.result 1 <<< 8) + byte frame_co2_3000.result 2) % 65536
        = byte frame_co2_3000.result 1 * 256 + byte frame_co2_3000.result 2
    ∧ byte frame_co2_3000.result 1 * 256 + byte frame_co2_3000.result 2 ≤ 65535
    ∧ Effect.publish TOPIC_TEMP_ERROR ['r'] 2 true ∉ (loop_body 8 ErrCaches.init
        frame_co2_3000).effects
    ∧ Effect.publish TOPIC_CO2_ERROR ['r'] 2 true ∉ (loop_body 8 ErrCaches.init
        frame_co2_3000).effects) :=
  ⟨by decide, by decide, by decide,
   frame_accepted 8 ErrCaches.init frame_co2_3000 (by decide) (by decide) (by decide)⟩

/-- Claim C5: for a frame that passes the checks and has the code `0x50`, with the
word `w = byte1 * 256 + byte2`, a CO2 measurement is published if and only if
`w ≤ 3000`; it is then the one publish on `homeassistant/sensor/co2mon/co2`,
with the decimal digits of `w` as payload. Nothing is published on the
temperature topic. The word 3000 is published as "3000", the word 3001 is not
published. -/
theorem co2_range_check (ptr_size : Nat) (st : ErrCaches) (rd : ReadOutcome)
    (hr : 0 < rd.r)
    (h4 : byte rd.result 4 = 0x0d)
    (h3 : byte rd.result 3 = (byte rd.result 0 + byte rd.result 1 + byte rd.result 2) % 256)
    (hc : byte rd.result 0 = 0x50) :
    publishes_on TOPIC_CO2 (loop_body ptr_size st rd).effects =
        (if byte rd.result 1 * 256 + byte rd.result 2 ≤ 3000 then
          [Effect.publish "homeassistant/sensor/co2mon/co2"
            (Nat.repr (byte rd.result 1 * 256 + byte rd.result 2)).toList 2 true]
         else [])
    ∧ (publishes_on TOPIC_CO2 (loop_body ptr_size st rd).effects ≠ [] ↔
        byte rd.result 1 * 256 + byte rd.result 2 ≤ 3000)
    ∧ publishes_on TOPIC_TEMP (loop_body ptr_size st rd).effects = []
    ∧ (byte rd.result 1 * 256 + byte rd.result 2 = 3000 →
        publishes_on TOPIC_CO2 (loop_body ptr_size st rd).effects =
          [Effect.publish "homeassistant/sensor/co2mon/co2" ['3', '0', '0', '0'] 2 true])
    ∧ (byte rd.result 1 * 256 + byte rd.result 2 = 3001 →
        publishes_on TOPIC_CO2 (loop_body ptr_size st rd).effects = []) := by
  have hb := loop_body_valid ptr_size st rd hr h4 h3
  have hw := word_lt rd.result
  have hrepr : ∀ k : Nat, (Nat.repr k).toList = Nat.toDigits 10 k := fun _ => rfl
  have main : publishes_on TOPIC_CO2 (loop_body ptr_size st rd).effects =
      (if byte rd.result 1 * 256 + byte rd.result 2 ≤ 3000 then
        [Effect.publish TOPIC_CO2
          (Nat.repr (byte rd.result 1 * 256 + byte rd.result 2)).toList 2 true]
       else []) := by
    rw [hb, hc]
    simp only [switch_stmt_co2 _ _ _ hw, hrepr]
    by_cases hle : byte rd.result 1 * 256 + byte rd.result 2 ≤ 3000
    · rw [if_neg (not_lt.mpr hle), if_pos hle, publishes_on_cons_same,
        publishes_on_set_co2_error_none _ _ _ (by decide)]
    · rw [if_pos (not_le.mp hle), if_neg hle]
      rfl
  refine ⟨main, ?_, ?_, ?_, ?_⟩
  · rw [main]
    by_cases hle : byte rd.result 1 * 256 + byte rd.result 2 ≤ 3000
    · simp [hle]
    · simp [hle]
  · rw [hb, hc]
    simp only [switch_stmt_co2 _ _ _ hw]
    split
    · rfl
    · rw [publishes_on_cons_other _ _ _ _ _ _ (by decide),
        publishes_on_set_co2_error_none _ _ _ (by decide)]
  · intro h
    rw [main, h]
    decide
  · intro h
    rw [main, h]
    decide

/-- Claim C5 on the frame `50 0b b8 13 0d ..` (word 3000). -/
theorem co2_range_check_witness :
    (0 < frame_co2_3000.r) ∧
    (byte frame_co2_3000.result 4 = 0x0d) ∧
    (byte frame_co2_3000.result 3 = (byte frame_co2_3000.result 0 + byte frame_co2_3000.result 1
        + byte frame_co2_3000.result 2) % 256) ∧
    (byte frame_co2_3000.result 0 = 0x50) ∧
    (publishes_on TOPIC_CO2 (loop_body 8 ErrCaches.init frame_co2_3000).effects =
        (if byte frame_co2_3000.result 1 * 256 + byte frame_co2_3000.result 2 ≤ 3000 then
          [Effect.publish "homeassistant/sensor/co2mon/co2"
            (Nat.repr (byte frame_co2_3000.result 1 * 256 + byte frame_co2_3000.result 2)).toList
                2 true]
         else [])
    ∧ (publishes_on TOPIC_CO2 (loop_body 8 ErrCaches.init frame_co2_3000).effects ≠ [] ↔
        byte frame_co2_3000.result 1 * 256 + byte frame_co2_3000.result 2 ≤ 3000)
    ∧ publishes_on TOPIC_TEMP (loop_body 8 ErrCaches.init frame_co2_3000).effects = []
    ∧ (byte frame_co2_3000.result 1 * 256 + byte frame_co2_3000.result 2 = 3000 →
        publishes_on TOPIC_CO2 (loop_body 8 ErrCaches.init frame_co2_3000).effects =
          [Effect.publish "homeassistant/sensor/co2mon/co2" ['3', '0', '0', '0'] 2 true])
    ∧ (byte frame_co2_3000.result 1 * 256 + byte frame_co2_3000.result 2 = 3001 →
        publishes_on TOPIC_CO2 (loop_body 8 ErrCaches.init frame_co2_3000).effects = [])) :=
  ⟨by decide, by decide, by decide, by decide,
   co2_range_check 8 ErrCaches.init frame_co2_3000 (by decide) (by decide) (by decide)
     (by decide)⟩

/-- Claim C6: for every channel, every stored state and every error string `e`
that is not empty, a report of `e` followed by a report of success publishes,
in the second call, exactly one notification on
`homeassistant/sensor/co2mon/<channel>/error` with an empty payload and leaves
the cache of the channel empty; what the first call publishes, if anything, is
`e` itself (not an empty payload); a report of success on a cache that is
empty publishes nothing and changes nothing. -/
theorem error_recovery (ptr_size : Nat) (ch : Channel) (st : ErrCaches) (e : List Char)
    (hp : 0 < ptr_size)
    (he : cstr e ≠ []) :
    (report ptr_size ch (report ptr_size ch st (some e)).1 none).2
        = [Effect.publish ("homeassistant/sensor/co2mon/" ++ ch.control ++ "/error") [] 2 true]
    ∧ cstr (ch.cache (report ptr_size ch (report ptr_size ch st (some e)).1 none).1) = []
    ∧ (∀ x ∈ (report ptr_size ch st (some e)).2,
        x = Effect.publish ("homeassistant/sensor/co2mon/" ++ ch.control ++ "/error")
              (cstr e) 2 true)
    ∧ (∀ clear : ErrCaches, cstr (ch.cache clear) = [] →
        report ptr_size ch clear none = (clear, [])) := by
  have gen : ∀ (control : String) (cache : List Char),
      error_topic control = "homeassistant/sensor/co2mon/" ++ control ++ "/error" →
      (_set_control_error ptr_size control
          (_set_control_error ptr_size control cache (some e)).1 none).2
        = [Effect.publish ("homeassistant/sensor/co2mon/" ++ control ++ "/error") [] 2 true]
      ∧ cstr (_set_control_error ptr_size control
          (_set_control_error ptr_size control cache (some e)).1 none).1 = []
      ∧ (∀ x ∈ (_set_control_error ptr_size control cache (some e)).2,
          x = Effect.publish ("homeassistant/sensor/co2mon/" ++ control ++ "/error")
                (cstr e) 2 true)
      ∧ (∀ clear : List Char, cstr clear = [] →
          _set_control_error ptr_size control clear none = (clear, [])) := by
    intro control cache ht
    have hh := headD_after_report ptr_size hp control cache e he
    refine ⟨?_, ?_, ?_, ?_⟩
    · rw [set_control_error_none_of_ne _ _ _ hh]
      simp [publish_mqtt_error, ht]
    · rw [set_control_error_none_of_ne _ _ _ hh]
      exact cstr_set_zero _
    · intro x hx
      by_cases hce : cstr cache = cstr e
      · simp [_set_control_error, hce] at hx
      · simp [_set_control_error, hce, publish_mqtt_error, ht] at hx
        simpa using hx
    · intro clear hcl
      exact set_control_error_none_of_eq _ _ _ (headD_eq_of_cstr_eq_nil clear hcl)
  cases ch
  · have g := gen "temp" st.temp (by decide)
    refine ⟨g.1, g.2.1, g.2.2.1, ?_⟩
    intro clear hcl
    have := g.2.2.2 clear.temp hcl
    simp only [report, set_temp_error, this]
  · have g := gen "co2" st.co2 (by decide)
    refine ⟨g.1, g.2.1, g.2.2.1, ?_⟩
    intro clear hcl
    have := g.2.2.2 clear.co2 hcl
    simp only [report, set_co2_error, this]

/-- Claim C6 for "r" on the CO2 channel with 8-byte pointers. -/
theorem error_recovery_witness :
    (0 < 8) ∧
    (cstr ['r'] ≠ []) ∧
    ((report 8 Channel.co2 (report 8 Channel.co2 ErrCaches.init (some ['r'])).1 none).2
        = [Effect.publish ("homeassistant/sensor/co2mon/" ++ Channel.co2.control ++ "/error") []
            2 true]
    ∧ cstr (Channel.co2.cache (report 8 Channel.co2 (report 8 Channel.co2 ErrCaches.init (some
        ['r'])).1 none).1) = []
    ∧ (∀ x ∈ (report 8 Channel.co2 ErrCaches.init (some ['r'])).2,
        x = Effect.publish ("homeassistant/sensor/co2mon/" ++ Channel.co2.control ++ "/error")
              (cstr ['r']) 2 true)
    ∧ (∀ clear : ErrCaches, cstr (Channel.co2.cache clear) = [] →
        report 8 Channel.co2 clear none = (clear, []))) :=
  ⟨by decide, by decide, error_recovery 8 Channel.co2 ErrCaches.init ['r'] (by decide) (by decide)⟩

/-- Claim C7, counterexample: after a read that timed out both caches hold "r";
a read that then reports the removal of the device publishes no error
notification at all (and `device_loop` returns). -/
theorem device_removed_after_timeout_silent :
    (loop_body 8 ErrCaches.init { r := 0, result := [] }).effects =
        [Effect.publish "homeassistant/sensor/co2mon/temp/error" ['r'] 2 true,
         Effect.publish "homeassistant/sensor/co2mon/co2/error" ['r'] 2 true,
         Effect.sleep 1]
    ∧ (loop_body 8 (loop_body 8 ErrCaches.init { r := 0, result := [] }).caches
        { r := LIBUSB_ERROR_NO_DEVICE, result := [] }).effects = []
    ∧ (device_loop 8 ErrCaches.init true
        [{ r := 0, result := [] }, { r := LIBUSB_ERROR_NO_DEVICE, result := [] }]).returned
        = true := by
  decide

/-- Claim C7, amended: when a read during polling returns
`LIBUSB_ERROR_NO_DEVICE`, the error "r" is reported to the tracker of each
channel, which publishes exactly one error notification on a channel whose
cache does not hold "r" already and none on a channel whose cache does; no
further read is made (`unread` is all that follows), `device_loop` returns, and
`monitor_loop` closes the device, sleeps one second and goes on with the next
`co2mon_open_device`. -/
theorem device_removed (ptr_size : Nat) (st0 : ErrCaches) (pre : List ReadOutcome)
    (rd : ReadOutcome) (rest : List ReadOutcome) (opens : List (Option Session))
    (hpre : (device_loop_while ptr_size st0 pre).returned = false)
    (hr : rd.r = LIBUSB_ERROR_NO_DEVICE) :
    loop_body ptr_size (device_loop_while ptr_size st0 pre).caches rd =
        { caches := (set_errors ptr_size (device_loop_while ptr_size st0 pre).caches).1,
          effects := (set_errors ptr_size (device_loop_while ptr_size st0 pre).caches).2,
          brk := true }
    ∧ publishes_on TOPIC_TEMP_ERROR
          (loop_body ptr_size (device_loop_while ptr_size st0 pre).caches rd).effects =
        (if cstr (device_loop_while ptr_size st0 pre).caches.temp = ['r'] then []
         else [Effect.publish "homeassistant/sensor/co2mon/temp/error" ['r'] 2 true])
    ∧ publishes_on TOPIC_CO2_ERROR
          (loop_body ptr_size (device_loop_while ptr_size st0 pre).caches rd).effects =
        (if cstr (device_loop_while ptr_size st0 pre).caches.co2 = ['r'] then []
         else [Effect.publish "homeassistant/sensor/co2mon/co2/error" ['r'] 2 true])
    ∧ device_loop ptr_size st0 true (pre ++ rd :: rest) =
        { caches := (set_errors ptr_size (device_loop_while ptr_size st0 pre).caches).1,
          effects := (device_loop_while ptr_size st0 pre).effects ++
            (set_errors ptr_size (device_loop_while ptr_size st0 pre).caches).2,
          returned := true,
          unread := rest }
    ∧ monitor_loop ptr_size st0
          (some { magic_sent := true, reads := pre ++ rd :: rest } :: opens) =
        ((monitor_loop ptr_size
            (set_errors ptr_size (device_loop_while ptr_size st0 pre).caches).1 opens).1,
         (device_loop_while ptr_size st0 pre).effects ++
            (set_errors ptr_size (device_loop_while ptr_size st0 pre).caches).2 ++
            [Effect.close_device, Effect.sleep 1] ++
            (monitor_loop ptr_size
              (set_errors ptr_size (device_loop_while ptr_size st0 pre).caches).1 opens).2) := by
  have hb := loop_body_no_device ptr_size (device_loop_while ptr_size st0 pre).caches rd hr
  have hd : device_loop ptr_size st0 true (pre ++ rd :: rest) =
      { caches := (set_errors ptr_size (device_loop_while ptr_size st0 pre).caches).1,
        effects := (device_loop_while ptr_size st0 pre).effects ++
          (set_errors ptr_size (device_loop_while ptr_size st0 pre).caches).2,
        returned := true,
        unread := rest } := by
    simp only [device_loop, Bool.not_true, Bool.false_eq_true, if_false]
    rw [device_loop_while_append ptr_size pre (rd :: rest) st0 hpre]
    simp [device_loop_while, hb]
  refine ⟨hb, ?_, ?_, hd, ?_⟩
  · rw [hb]; exact publishes_on_temp_error_set_errors _ _
  · rw [hb]; exact publishes_on_co2_error_set_errors _ _
  · simp only [monitor_loop, hd, if_true]

/-- Claim C7, the amended statement for a device removed after one temperature frame. -/
theorem device_removed_witness :
    ((device_loop_while 8 ErrCaches.init [frame_temp_4096]).returned = false) ∧
    (read_no_device.r = LIBUSB_ERROR_NO_DEVICE) ∧
    (loop_body 8 (device_loop_while 8 ErrCaches.init [frame_temp_4096]).caches read_no_device =
        { caches := (set_errors 8 (device_loop_while 8 ErrCaches.init [frame_temp_4096]).caches).1,
          effects := (set_errors 8 (device_loop_while 8 ErrCaches.init [frame_temp_4096]).caches).2,
          brk := true }
    ∧ publishes_on TOPIC_TEMP_ERROR
          (loop_body 8 (device_loop_while 8 ErrCaches.init [frame_temp_4096]).caches
              read_no_device).effects =
        (if cstr (device_loop_while 8 ErrCaches.init [frame_temp_4096]).caches.temp = ['r'] then []
         else [Effect.publish "homeassistant/sensor/co2mon/temp/error" ['r'] 2 true])
    ∧ publishes_on TOPIC_CO2_ERROR
          (loop_body 8 (device_loop_while 8 ErrCaches.init [frame_temp_4096]).caches
              read_no_device).effects =
        (if cstr (device_loop_while 8 ErrCaches.init [frame_temp_4096]).caches.co2 = ['r'] then []
         else [Effect.publish "homeassistant/sensor/co2mon/co2/error" ['r'] 2 true])
    ∧ device_loop 8 ErrCaches.init true ([frame_temp_4096] ++ read_no_device :: [frame_co2_3000]) =
        { caches := (set_errors 8 (device_loop_while 8 ErrCaches.init [frame_temp_4096]).caches).1,
          effects := (device_loop_while 8 ErrCaches.init [frame_temp_4096]).effects ++
            (set_errors 8 (device_loop_while 8 ErrCaches.init [frame_temp_4096]).caches).2,
          returned := true,
          unread := [frame_co2_3000] }
    ∧ monitor_loop 8 ErrCaches.init
          (some { magic_sent := true, reads := [frame_temp_4096] ++ read_no_device ::
              [frame_co2_3000] } :: [none]) =
        ((monitor_loop 8
            (set_errors 8 (device_loop_while 8 ErrCaches.init [frame_temp_4096]).caches).1
                [none]).1,
         (device_loop_while 8 ErrCaches.init [frame_temp_4096]).effects ++
            (set_errors 8 (device_loop_while 8 ErrCaches.init [frame_temp_4096]).caches).2 ++
            [Effect.close_device, Effect.sleep 1] ++
            (monitor_loop 8
              (set_errors 8 (device_loop_while 8 ErrCaches.init [frame_temp_4096]).caches).1
                  [none]).2)) :=
  ⟨by decide, by decide,
   device_removed 8 ErrCaches.init [frame_temp_4096] read_no_device [frame_co2_3000] [none]
     (by decide) (by decide)⟩

/-- Claim C8: for a frame that passes the checks, the cache of the temp channel can
change only if the code is `0x42` and the cache of the co2 channel only if the
code is `0x50` and the word is at most 3000; with code `0x42` the temp cache
is left empty and the co2 cache untouched, with code `0x50` and a word of at
most 3000 the co2 cache is left empty and the temp cache untouched; a frame
with another code (humidity `0x41` included) or a CO2 frame with a word above
3000 has no effect at all and leaves both caches as they were. -/
theorem validated_frame_effect (ptr_size : Nat) (st : ErrCaches) (rd : ReadOutcome)
    (hr : 0 < rd.r)
    (h4 : byte rd.result 4 = 0x0d)
    (h3 : byte rd.result 3 = (byte rd.result 0 + byte rd.result 1 + byte rd.result 2) % 256) :
    ((loop_body ptr_size st rd).caches.temp ≠ st.temp → byte rd.result 0 = 0x42)
    ∧ ((loop_body ptr_size st rd).caches.co2 ≠ st.co2 →
        byte rd.result 0 = 0x50 ∧ byte rd.result 1 * 256 + byte rd.result 2 ≤ 3000)
    ∧ (byte rd.result 0 = 0x42 →
        cstr (loop_body ptr_size st rd).caches.temp = [] ∧
        (loop_body ptr_size st rd).caches.co2 = st.co2)
    ∧ (byte rd.result 0 = 0x50 → byte rd.result 1 * 256 + byte rd.result 2 ≤ 3000 →
        cstr (loop_body ptr_size st rd).caches.co2 = [] ∧
        (loop_body ptr_size st rd).caches.temp = st.temp)
    ∧ ((byte rd.result 0 ≠ 0x42 ∧ byte rd.result 0 ≠ 0x50) ∨
        (byte rd.result 0 = 0x50 ∧ 3000 < byte rd.result 1 * 256 + byte rd.result 2) →
        (loop_body ptr_size st rd).effects = [] ∧ (loop_body ptr_size st rd).caches = st)
    ∧ (byte rd.result 0 = CODE_HUMIDITY →
        (loop_body ptr_size st rd).effects = [] ∧ (loop_body ptr_size st rd).caches = st) := by
  have hb := loop_body_valid ptr_size st rd hr h4 h3
  have hw := word_lt rd.result
  have other : (byte rd.result 0 ≠ 0x42 ∧ byte rd.result 0 ≠ 0x50) ∨
      (byte rd.result 0 = 0x50 ∧ 3000 < byte rd.result 1 * 256 + byte rd.result 2) →
      (loop_body ptr_size st rd).effects = [] ∧ (loop_body ptr_size st rd).caches = st := by
    rintro (⟨c1, c2⟩ | ⟨c2, hgt⟩)
    · rw [hb, switch_stmt_other _ _ _ _ c1 c2]
      exact ⟨rfl, rfl⟩
    · rw [hb, c2, switch_stmt_co2 _ _ _ hw, if_pos hgt]
      exact ⟨rfl, rfl⟩
  have tempCase : byte rd.result 0 = 0x42 →
      cstr (loop_body ptr_size st rd).caches.temp = [] ∧
      (loop_body ptr_size st rd).caches.co2 = st.co2 := by
    intro c1
    rw [hb, c1, switch_stmt_temp, set_temp_error_none]
    by_cases hh : st.temp.headD NUL = NUL
    · rw [if_pos hh]
      exact ⟨cstr_eq_nil_of_headD _ hh, rfl⟩
    · rw [if_neg hh]
      exact ⟨cstr_set_zero _, rfl⟩
  have co2Case : byte rd.result 0 = 0x50 →
      byte rd.result 1 * 256 + byte rd.result 2 ≤ 3000 →
      cstr (loop_body ptr_size st rd).caches.co2 = [] ∧
      (loop_body ptr_size st rd).caches.temp = st.temp := by
    intro c2 hle
    rw [hb, c2, switch_stmt_co2 _ _ _ hw, if_neg (not_lt.mpr hle), set_co2_error_none]
    by_cases hh : st.co2.headD NUL = NUL
    · rw [if_pos hh]
      exact ⟨cstr_eq_nil_of_headD _ hh, rfl⟩
    · rw [if_neg hh]
      exact ⟨cstr_set_zero _, rfl⟩
  refine ⟨?_, ?_, tempCase, co2Case, other, ?_⟩
  · intro hne
    by_contra c1
    by_cases c2 : byte rd.result 0 = 0x50
    · by_cases hle : byte rd.result 1 * 256 + byte rd.result 2 ≤ 3000
      · exact hne (co2Case c2 hle).2
      · exact hne (by rw [(other (Or.inr ⟨c2, not_le.mp hle⟩)).2])
    · exact hne (by rw [(other (Or.inl ⟨c1, c2⟩)).2])
  · intro hne
    by_cases c1 : byte rd.result 0 = 0x42
    · exact absurd (tempCase c1).2 hne
    · by_cases c2 : byte rd.result 0 = 0x50
      · by_cases hle : byte rd.result 1 * 256 + byte rd.result 2 ≤ 3000
        · exact ⟨c2, hle⟩
        · exact absurd (by rw [(other (Or.inr ⟨c2, not_le.mp hle⟩)).2]) hne
      · exact absurd (by rw [(other (Or.inl ⟨c1, c2⟩)).2]) hne
  · intro ch
    apply other
    left
    rw [ch]
    decide

/-- Claim C8 on the humidity frame `41 12 34 87 0d ..`. -/
theorem validated_frame_effect_witness :
    (0 < frame_humidity.r) ∧
    (byte frame_humidity.result 4 = 0x0d) ∧
    (byte frame_humidity.result 3 = (byte frame_humidity.result 0 + byte frame_humidity.result 1
        + byte frame_humidity.result 2) % 256) ∧
    (((loop_body 8 ErrCaches.init frame_humidity).caches.temp ≠ ErrCaches.init.temp → byte
        frame_humidity.result 0 = 0x42)
    ∧ ((loop_body 8 ErrCaches.init frame_humidity).caches.co2 ≠ ErrCaches.init.co2 →
        byte frame_humidity.result 0 = 0x50 ∧ byte frame_humidity.result 1 * 256 + byte
            frame_humidity.result 2 ≤ 3000)
    ∧ (byte frame_humidity.result 0 = 0x42 →
        cstr (loop_body 8 ErrCaches.init frame_humidity).caches.temp = [] ∧
        (loop_body 8 ErrCaches.init frame_humidity).caches.co2 = ErrCaches.init.co2)
    ∧ (byte frame_humidity.result 0 = 0x50 → byte frame_humidity.result 1 * 256 + byte
        frame_humidity.result 2 ≤ 3000 →
        cstr (loop_body 8 ErrCaches.init frame_humidity).caches.co2 = [] ∧
        (loop_body 8 ErrCaches.init frame_humidity).caches.temp = ErrCaches.init.temp)
    ∧ ((byte frame_humidity.result 0 ≠ 0x42 ∧ byte frame_humidity.result 0 ≠ 0x50) ∨
        (byte frame_humidity.result 0 = 0x50 ∧ 3000 < byte frame_humidity.result 1 * 256 + byte
            frame_humidity.result 2) →
        (loop_body 8 ErrCaches.init frame_humidity).effects = [] ∧ (loop_body 8 ErrCaches.init
            frame_humidity).caches = ErrCaches.init)
    ∧ (byte frame_humidity.result 0 = CODE_HUMIDITY →
        (loop_body 8 ErrCaches.init frame_humidity).effects = [] ∧ (loop_body 8 ErrCaches.init
            frame_humidity).caches = ErrCaches.init)) :=
  ⟨by decide, by decide, by decide,
   validated_frame_effect 8 ErrCaches.init frame_humidity (by decide) (by decide) (by decide)⟩

/-- Claim C9, counterexample: in binary64 the word `0x1000` decodes to
`-150852995330867 / 2^43 = -17.149999999999977...`, which is neither the number
`4096 * 0.0625 - 273.15 = -17.15` nor the double nearest to `-17.15`; the
difference shows in what is published: "-17.1", where `"%2.1f"` of the number
`-17.15` would be "-17.2". -/
theorem decode_temperature_4096_inexact :
    decode_temperature 4096 ≠ (4096 : ℚ) * 0.0625 - 273.15
    ∧ (4096 : ℚ) * 0.0625 - 273.15 = -17.15
    ∧ decode_temperature 4096 ≠ toDouble (-17.15)
    ∧ cstr (snprintf 15 (fmt_2_1f (decode_temperature 4096))) = ['-', '1', '7', '.', '1']
    ∧ fmt_2_1f (-17.15) = ['-', '1', '7', '.', '2'] := by
  refine ⟨?_, ?_, ?_, payload_4096, fmt_exact_17_15⟩
  · rw [decode_temperature_4096]; norm_num
  · norm_num
  · rw [decode_temperature_4096, toDouble_neg_17_15]; norm_num

/-- Claim C9, amended: for every 16-bit word `w`, `decode_temperature w` is the
binary64 result of `w * 0.0625 - 273.15`; it lies within `10^-12` of that
number and is never equal to it (the word `0x1000` decodes to
`-150852995330867 / 2^43`, about `-17.149999999999977`, printed by `"%2.1f"`
as "-17.1"); and a frame that
passes the checks and has the code `0x42` is accepted whatever its word:
exactly one measurement is published on `homeassistant/sensor/co2mon/temp`,
the `"%2.1f"` text of the decoded word, and none on the CO2 topic. -/
theorem temperature_decode (w : Nat) (ptr_size : Nat) (st : ErrCaches) (rd : ReadOutcome)
    (hw : w < 65536)
    (hr : 0 < rd.r)
    (h4 : byte rd.result 4 = 0x0d)
    (h3 : byte rd.result 3 = (byte rd.result 0 + byte rd.result 1 + byte rd.result 2) % 256)
    (hc : byte rd.result 0 = 0x42) :
    |decode_temperature w - ((w : ℚ) * 0.0625 - 273.15)| < 1 / 10 ^ 12
    ∧ decode_temperature w ≠ (w : ℚ) * 0.0625 - 273.15
    ∧ decode_temperature 4096 = -150852995330867 / 8796093022208
    ∧ cstr (snprintf 15 (fmt_2_1f (decode_temperature 4096))) = ['-', '1', '7', '.', '1']
    ∧ publishes_on TOPIC_TEMP (loop_body ptr_size st rd).effects =
        [Effect.publish "homeassistant/sensor/co2mon/temp"
          (cstr (snprintf 15 (fmt_2_1f
            (decode_temperature (byte rd.result 1 * 256 + byte rd.result 2))))) 2 true]
    ∧ publishes_on TOPIC_CO2 (loop_body ptr_size st rd).effects = [] := by
  have hb := loop_body_valid ptr_size st rd hr h4 h3
  refine ⟨decode_temperature_err w hw, decode_temperature_ne w, decode_temperature_4096,
    payload_4096, ?_, ?_⟩
  · rw [hb, hc, switch_stmt_temp]
    show publishes_on TOPIC_TEMP (Effect.publish TOPIC_TEMP _ 2 true :: _) = _
    rw [publishes_on_cons_same, publishes_on_set_temp_error_none _ _ _ (by decide)]
    rfl
  · rw [hb, hc, switch_stmt_temp]
    show publishes_on TOPIC_CO2 (Effect.publish TOPIC_TEMP _ 2 true :: _) = _
    rw [publishes_on_cons_other _ _ _ _ _ _ (by decide),
      publishes_on_set_temp_error_none _ _ _ (by decide)]

/-- Claim C9, the amended statement on the word `0x1000` and the frame `42 10 00 52 0d ..`. -/
theorem temperature_decode_witness :
    (4096 < 65536) ∧
    (0 < frame_temp_4096.r) ∧
    (byte frame_temp_4096.result 4 = 0x0d) ∧
    (byte frame_temp_4096.result 3 = (byte frame_temp_4096.result 0 + byte frame_temp_4096.result
        1 + byte frame_temp_4096.result 2) % 256) ∧
    (byte frame_temp_4096.result 0 = 0x42) ∧
    (|decode_temperature 4096 - ((4096 : ℚ) * 0.0625 - 273.15)| < 1 / 10 ^ 12
    ∧ decode_temperature 4096 ≠ (4096 : ℚ) * 0.0625 - 273.15
    ∧ decode_temperature 4096 = -150852995330867 / 8796093022208
    ∧ cstr (snprintf 15 (fmt_2_1f (decode_temperature 4096))) = ['-', '1', '7', '.', '1']
    ∧ publishes_on TOPIC_TEMP (loop_body 8 ErrCaches.init frame_temp_4096).effects =
        [Effect.publish "homeassistant/sensor/co2mon/temp"
          (cstr (snprintf 15 (fmt_2_1f
            (decode_temperature (byte frame_temp_4096.result 1 * 256 + byte
                frame_temp_4096.result 2))))) 2 true]
    ∧ publishes_on TOPIC_CO2 (loop_body 8 ErrCaches.init frame_temp_4096).effects = []) :=
  ⟨by decide, by decide, by decide, by decide, by decide,
   temperature_decode 4096 8 ErrCaches.init frame_temp_4096 (by decide) (by decide) (by decide)
     (by decide) (by decide)⟩

/-- Claim C10: whatever the devices do (any sequence of outcomes of
`co2mon_open_device`, `co2mon_send_magic_table` and `co2mon_read_data`, any
frames), starting from the caches as initialised and with a pointer size
between 2 and 100 bytes, each cache holds the empty string or exactly "r";
it keeps its 100 bytes with the terminator inside them, the bounded copy of
`_set_control_error` stores "r" whole, and every publish on an error topic
carries the payload "r" or an empty payload. The state is taken where the
run stands between two passes of a loop; the last part covers the states
inside a pass, which are one tracker call (an error "r" or a success, on one
channel) away from such a state. -/
theorem error_caches_invariant (ptr_size : Nat) (opens : List (Option Session))
    (h2 : 2 ≤ ptr_size)
    (h100 : ptr_size ≤ 100) :
    (cstr (monitor_loop ptr_size ErrCaches.init opens).1.temp = [] ∨
      cstr (monitor_loop ptr_size ErrCaches.init opens).1.temp = ['r'])
    ∧ (cstr (monitor_loop ptr_size ErrCaches.init opens).1.co2 = [] ∨
      cstr (monitor_loop ptr_size ErrCaches.init opens).1.co2 = ['r'])
    ∧ (monitor_loop ptr_size ErrCaches.init opens).1.temp.length = 100
    ∧ (monitor_loop ptr_size ErrCaches.init opens).1.co2.length = 100
    ∧ strlen (monitor_loop ptr_size ErrCaches.init opens).1.temp < 100
    ∧ strlen (monitor_loop ptr_size ErrCaches.init opens).1.co2 < 100
    ∧ cstr (strncpy (monitor_loop ptr_size ErrCaches.init opens).1.temp ['r'] ptr_size) = ['r']
    ∧ cstr (strncpy (monitor_loop ptr_size ErrCaches.init opens).1.co2 ['r'] ptr_size) = ['r']
    ∧ (∀ t p q r, Effect.publish t p q r ∈ (monitor_loop ptr_size ErrCaches.init opens).2 →
        t = TOPIC_TEMP_ERROR ∨ t = TOPIC_CO2_ERROR → p = ['r'] ∨ p = [])
    ∧ (∀ (ch : Channel) (err : Option (List Char)), err = some ['r'] ∨ err = none →
        (cstr (report ptr_size ch (monitor_loop ptr_size ErrCaches.init opens).1 err).1.temp = [] ∨
          cstr (report ptr_size ch (monitor_loop ptr_size ErrCaches.init opens).1 err).1.temp
            = ['r'])
        ∧ (cstr (report ptr_size ch (monitor_loop ptr_size ErrCaches.init opens).1 err).1.co2 = [] ∨
          cstr (report ptr_size ch (monitor_loop ptr_size ErrCaches.init opens).1 err).1.co2
            = ['r'])) := by
  have h := monitor_loop_ok ptr_size (by omega) h100 opens ErrCaches.init caches_ok_init
  have ft := cache_ok_facts _ h.1.1
  have fc := cache_ok_facts _ h.1.2
  have hlt : strlen ['r'] < ptr_size := by
    have : strlen ['r'] = 1 := by decide
    omega
  have hc : cstr ['r'] = ['r'] := by decide
  refine ⟨ft.1, fc.1, ft.2.1, fc.2.1, ft.2.2, fc.2.2, ?_, ?_, h.2, ?_⟩
  · rw [cstr_strncpy_of_lt _ _ _ hlt, hc]
  · rw [cstr_strncpy_of_lt _ _ _ hlt, hc]
  · intro ch err herr
    have hk := caches_ok_report ptr_size ch _ err (by omega) h100 herr h.1
    exact ⟨(cache_ok_facts _ hk.1).1, (cache_ok_facts _ hk.2).1⟩

/-- Claim C10 on a run with no device, then a session that ends with the removal
of the device, then a failed handshake. -/
theorem error_caches_invariant_witness :
    (2 ≤ 8) ∧
    (8 ≤ 100) ∧
    ((cstr (monitor_loop 8 ErrCaches.init sample_run).1.temp = [] ∨
      cstr (monitor_loop 8 ErrCaches.init sample_run).1.temp = ['r'])
    ∧ (cstr (monitor_loop 8 ErrCaches.init sample_run).1.co2 = [] ∨
      cstr (monitor_loop 8 ErrCaches.init sample_run).1.co2 = ['r'])
    ∧ (monitor_loop 8 ErrCaches.init sample_run).1.temp.length = 100
    ∧ (monitor_loop 8 ErrCaches.init sample_run).1.co2.length = 100
    ∧ strlen (monitor_loop 8 ErrCaches.init sample_run).1.temp < 100
    ∧ strlen (monitor_loop 8 ErrCaches.init sample_run).1.co2 < 100
    ∧ cstr (strncpy (monitor_loop 8 ErrCaches.init sample_run).1.temp ['r'] 8) = ['r']
    ∧ cstr (strncpy (monitor_loop 8 ErrCaches.init sample_run).1.co2 ['r'] 8) = ['r']
    ∧ (∀ t p q r, Effect.publish t p q r ∈ (monitor_loop 8 ErrCaches.init sample_run).2 →
        t = TOPIC_TEMP_ERROR ∨ t = TOPIC_CO2_ERROR → p = ['r'] ∨ p = [])
    ∧ (∀ (ch : Channel) (err : Option (List Char)), err = some ['r'] ∨ err = none →
        (cstr (report 8 ch (monitor_loop 8 ErrCaches.init sample_run).1 err).1.temp = [] ∨
          cstr (report 8 ch (monitor_loop 8 ErrCaches.init sample_run).1 err).1.temp = ['r'])
        ∧ (cstr (report 8 ch (monitor_loop 8 ErrCaches.init sample_run).1 err).1.co2 = [] ∨
          cstr (report 8 ch (monitor_loop 8 ErrCaches.init sample_run).1 err).1.co2
            = ['r']))) :=
  ⟨by decide, by decide, error_caches_invariant 8 sample_run (by decide) (by decide)⟩

end Co2mon
